import Mathlib

/-!
Verification development for the eBay message-synchronization engine of the
evamp operations backend (`backend/app/api/messages.py` and
`backend/app/models/messages.py`).

The Python code is shallowly embedded: SQLAlchemy rows become Lean structures,
the database session becomes explicit state passing (a `DB` value plus a
committed copy where commit granularity matters), datetimes become `Nat`
timestamps threaded through an abstract ISO-8601 parser
`pI : String -> Option Nat` together with a `now : Nat` parameter, and
exceptions become `Except` values.  Python truthiness on optional strings
(where both `None` and `""` are falsy) is modelled by `truthy`.
-/

namespace Evamp

/-- Python truthiness filter for optional strings: both `None` and `""` are
falsy.  `truthy o = some s` iff `o = some s` with `s` nonempty. -/
def truthy : Option String → Option String
  | some s => if s = "" then none else some s
  | none => none

/-- Python `a or b` on optional strings: falls through when `a` is `None`
or `""`. -/
def pyOr (a b : Option String) : Option String :=
  match truthy a with
  | some s => some s
  | none => b

/-- Python `opt or dflt` producing a plain string. -/
def pyOrD (a : Option String) (dflt : String) : String :=
  match truthy a with
  | some s => s
  | none => dflt

/-- Python `\s` on ASCII text: space, tab, newline, carriage return,
vertical tab, form feed. -/
def isPySpace (c : Char) : Bool :=
  c = ' ' ∨ c = '\t' ∨ c = '\n' ∨ c = '\r' ∨ c = Char.ofNat 11 ∨ c = Char.ofNat 12

/-- Python `str.strip()` on ASCII whitespace, character-list form. -/
def pyStripList (l : List Char) : List Char :=
  ((l.dropWhile isPySpace).reverse.dropWhile isPySpace).reverse

/-- Python `str.strip()`. -/
def pyStrip (s : String) : String := String.mk (pyStripList s.data)

/-- Python `str.lower()` on ASCII text. -/
def pyLower (s : String) : String := String.mk (s.data.map Char.toLower)

/-- Python `str.upper()` on ASCII text. -/
def pyUpper (s : String) : String := String.mk (s.data.map Char.toUpper)

/-- Python `str.startswith(p)`. -/
def pyStartsWith (s p : String) : Bool := p.data.isPrefixOf s.data

/-- Python `int(...)` on the decimal strings this code itself writes
(`str(offset)`, `"0"`); other inputs would raise and are unreachable in
the modelled flows. -/
def pyInt (s : String) : Nat :=
  s.data.foldl (fun acc c => acc * 10 + (c.toNat - 48)) 0

/-- One element of the raw `messageMedia` list coming from the eBay API.
`dict` carries the keys read by `_normalize_message_media`; `nonDict`
models a list entry that is not a dict (skipped by normalization). -/
inductive RawMedia where
  | dict (mediaName nameField mediaType typeField mediaUrl mediaURLField : Option String)
  | nonDict
  deriving DecidableEq

/-- A stored attachment `{mediaName, mediaType, mediaUrl}`
(`Message.media` JSON entries). -/
structure MediaItem where
  mediaName : String
  mediaType : String
  mediaUrl : Option String
  deriving DecidableEq

/-- Embeds `_normalize_message_media` (messages.py lines 889-901): build the
list of `{mediaName, mediaType, mediaUrl}` dicts; non-dict entries are
skipped, the type vocabulary is IMAGE/DOC/PDF/TXT with FILE fallback. -/
def normalizeMessageMedia (raw : List RawMedia) : List MediaItem :=
  (raw.enum.foldl (fun (out : List MediaItem) (ix : Nat × RawMedia) =>
    match ix.2 with
    | RawMedia.nonDict => out
    | RawMedia.dict mn nf mt tf mu muU =>
      let name0 := pyStrip (pyOrD (pyOr mn nf) ("file_" ++ toString (ix.1 + 1)))
      let name := if name0 = "" then "attachment_" ++ toString (ix.1 + 1) else name0
      let mtype0 := pyUpper (pyStrip (pyOrD (pyOr mt tf) "FILE"))
      let mtype :=
        if mtype0 = "IMAGE" ∨ mtype0 = "DOC" ∨ mtype0 = "PDF" ∨ mtype0 = "TXT"
        then mtype0 else "FILE"
      let url := pyStrip (pyOrD (pyOr mu muU) "")
      out ++ [⟨name, mtype, if url = "" then none else some url⟩]) [])

/-- One message record as returned by the eBay conversation-messages API. -/
structure ApiMsg where
  messageId : Option String
  senderUsername : Option String
  subject : Option String
  messageBody : Option String
  messageMedia : List RawMedia
  readStatus : Bool
  createdDate : Option String
  deriving DecidableEq

/-- One conversation record as returned by the eBay conversations API.
`latestSender`/`latestRecipient` are `latestMessage.senderUsername` /
`latestMessage.recipientUsername`, the only parts of `latestMessage` the
sync reads. -/
structure ApiConversation where
  conversationId : Option String
  referenceId : Option String
  referenceType : Option String
  createdDate : Option String
  latestSender : Option String
  latestRecipient : Option String
  deriving DecidableEq

/-- A row of the `messages` table (models/messages.py `Message`).  Timestamps
are abstract `Nat` instants. -/
structure Message where
  message_id : String
  thread_id : String
  sender_type : String
  sender_username : Option String
  subject : Option String
  content : String
  media : Option (List MediaItem)
  is_read : Bool
  detected_language : Option String
  translated_content : Option String
  ebay_created_at : Nat
  deriving DecidableEq

/-- A row of the `message_threads` table (models/messages.py
`MessageThread`). -/
structure MessageThread where
  thread_id : String
  buyer_username : Option String
  ebay_item_id : Option String
  ebay_order_id : Option String
  sku : Option String
  is_flagged : Bool
  last_message_preview : Option String
  last_message_at : Option Nat
  message_count : Nat
  unread_count : Nat
  created_at : Nat
  deriving DecidableEq

/-- The thread/message part of the relational store. -/
structure DB where
  threads : List MessageThread
  messages : List Message
  deriving DecidableEq

/-- The `sync_metadata` key/value table, as an association list in
insertion order. -/
abbrev Cursors := List (String × String)

/-- Look up a cursor row by key (models `SyncMetadata` select by key;
`key` is the table's primary key, so at most one row matches). -/
def getCursor : Cursors → String → Option String
  | [], _ => none
  | kv :: rest, key => if kv.1 = key then some kv.2 else getCursor rest key

/-- Update-or-insert a cursor row (models assigning `meta.value` when the row
exists, else `db.add(SyncMetadata(...))`). -/
def setCursor : Cursors → String → String → Cursors
  | [], key, value => [(key, value)]
  | kv :: rest, key, value =>
    if kv.1 = key then (key, value) :: rest else kv :: setCursor rest key value

/-- App settings visible to the sync code: the configured seller identity
(`settings.EBAY_SELLER_USERNAME`, optional). -/
structure Settings where
  EBAY_SELLER_USERNAME : Option String
  deriving DecidableEq

/-- `(settings.EBAY_SELLER_USERNAME or "").strip().lower()` — the normalized
local `seller_username` computed in `_do_sync_messages` (line 1172),
`refresh_thread_messages` (line 627) and threaded into the sync helpers. -/
def normalizedSeller (s : Settings) : String :=
  pyLower (pyStrip (pyOrD s.EBAY_SELLER_USERNAME ""))

/-- Embeds `_is_seller_username` (messages.py lines 904-913). -/
def isSellerUsername (s : Settings) (username : Option String) : Bool :=
  match truthy username with
  | none => false
  | some u0 =>
    let u := pyLower (pyStrip u0)
    (match truthy s.EBAY_SELLER_USERNAME with
     | some cfg => u = pyLower (pyStrip cfg)
     | none => false)
    || pyStartsWith u "evamp_"

/-- Embeds `_buyer_username_from_conversation` (messages.py lines 933-946):
the first of `latestMessage.senderUsername`, `latestMessage.recipientUsername`
that is nonempty and not the seller. -/
def buyerUsernameFromConversation (s : Settings) (conv : ApiConversation) :
    Option String :=
  let sender := pyStrip (pyOrD conv.latestSender "")
  let recipient := pyStrip (pyOrD conv.latestRecipient "")
  if sender ≠ "" ∧ ¬ isSellerUsername s (some sender) then some sender
  else if recipient ≠ "" ∧ ¬ isSellerUsername s (some recipient) then some recipient
  else none

/-- `_parse_iso_to_naive_utc` (messages.py lines 877-886) on an optional
string, with the ISO-8601 parser abstracted as `pI : String -> Option Nat`
(`pI` returns `none` when `datetime.fromisoformat` would raise). -/
def parseIsoOpt (pI : String → Option Nat) : Option String → Option Nat
  | none => none
  | some s => if s = "" then none else pI s

/-- `_parse_iso_to_naive_utc(x) or datetime.utcnow()`: the pervasive
fallback-to-now used for `ebay_created_at` and thread `created_at`. -/
def parseCreated (pI : String → Option Nat) (now : Nat) (s : Option String) : Nat :=
  match parseIsoOpt pI s with
  | some t => t
  | none => now

/-- `m.get("senderUsername") or ""` stripped — the sender string used for
classification on the member-channel paths. -/
def apiSender (m : ApiMsg) : String := pyStrip (pyOrD m.senderUsername "")

/-- Member-channel sender classification (messages.py lines 653, 1112, 1323):
`"seller" if seller_username and sender.lower() == seller_username else
"buyer"`, where `sellerU` is the already-normalized configured name. -/
def classifySender (sellerU : String) (sender : String) : String :=
  if sellerU ≠ "" ∧ pyLower sender = sellerU then "seller" else "buyer"

/-- `(m.get("subject") or "").strip() or None`. -/
def apiSubject (m : ApiMsg) : Option String :=
  let s0 := pyStrip (pyOrD m.subject "")
  if s0 = "" then none else some s0

/-- The `[{mtype}: {name}]` / `[Attachment {i+1}]` attachment annotation
appended to member-channel message bodies (messages.py lines 641-651,
1100-1110, 1311-1321). -/
def attachmentStr (ix : Nat × RawMedia) : String :=
  match ix.2 with
  | RawMedia.dict mn nf mt tf _ _ =>
    "[" ++ pyOrD (pyOr mt tf) "FILE" ++ ": "
        ++ pyOrD (pyOr mn nf) ("file_" ++ toString (ix.1 + 1)) ++ "]"
  | RawMedia.nonDict => "[Attachment " ++ toString (ix.1 + 1) ++ "]"

/-- The member-channel message body: `messageBody or ""` with attachment
annotations appended when `messageMedia` is nonempty. -/
def memberBody (m : ApiMsg) : String :=
  let body := pyOrD m.messageBody ""
  let media := m.messageMedia
  if media ≠ [] then
    let strs := media.enum.map attachmentStr
    if strs ≠ [] then
      if body = "" then String.intercalate " " strs
      else body ++ "\n" ++ String.intercalate " " strs
    else body
  else body

/-- `media_list if media_list else None` for the stored `media` column. -/
def mediaOrNone (raw : List RawMedia) : Option (List MediaItem) :=
  let ml := normalizeMessageMedia raw
  if ml = [] then none else some ml

/-- Construction of a new `Message` row on the member-channel sync paths
(full sync lines 1114-1125, incremental lines 1325-1336).  `sellerU` is the
normalized seller name, `tid` the owning conversation id, `mid` the (truthy)
external message id. -/
def newMemberMessage (sellerU : String) (pI : String → Option Nat) (now : Nat)
    (tid mid : String) (m : ApiMsg) : Message :=
  let sender := apiSender m
  { message_id := mid
    thread_id := tid
    sender_type := classifySender sellerU sender
    sender_username := if sender = "" then none else some sender
    subject := apiSubject m
    content := memberBody m
    media := mediaOrNone m.messageMedia
    is_read := m.readStatus
    detected_language := none
    translated_content := none
    ebay_created_at := parseCreated pI now m.createdDate }

/-- Construction of a new `Message` row in `refresh_thread_messages`
(messages.py lines 655-665); textually the same construction as the
member-channel sync paths. -/
def newRefreshMessage (sellerU : String) (pI : String → Option Nat) (now : Nat)
    (tid mid : String) (m : ApiMsg) : Message :=
  let sender := apiSender m
  { message_id := mid
    thread_id := tid
    sender_type := classifySender sellerU sender
    sender_username := if sender = "" then none else some sender
    subject := apiSubject m
    content := memberBody m
    media := mediaOrNone m.messageMedia
    is_read := m.readStatus
    detected_language := none
    translated_content := none
    ebay_created_at := parseCreated pI now m.createdDate }

/-! ### The system-message text normalizer `_strip_html_to_text`
(messages.py lines 851-874).

Each `re.sub` pass is embedded as a left-to-right scanner over `List Char`.
The scanners carry a fuel argument equal to the input length: every step
consumes at least one character, so the fuel never runs out on the lists the
wrappers pass; fuel only makes the recursion structural so that terms reduce
definitionally. -/

/-- Case-insensitive character comparison (regex `re.IGNORECASE`). -/
def lowerEq (a b : Char) : Bool := a.toLower = b.toLower

/-- Does `p` occur as a case-insensitive prefix of `l`? -/
def matchPrefixCI : List Char → List Char → Bool
  | [], _ => true
  | _ :: _, [] => false
  | p :: ps, c :: cs => lowerEq p c && matchPrefixCI ps cs

/-- Index of the first `'>'` in `l`, if any. -/
def findGtIdx : List Char → Option Nat
  | [] => none
  | c :: cs => if c = '>' then some 0 else (findGtIdx cs).map (· + 1)

/-- Number of characters from the start of `l` through the end of the first
case-insensitive occurrence of `pat` (the non-greedy `.*?pat` step of the
script/style regexes, with `re.DOTALL` so every character is matched). -/
def consumeThroughCI (pat : List Char) : List Char → Option Nat
  | [] => none
  | c :: cs =>
    if matchPrefixCI pat (c :: cs) then some pat.length
    else (consumeThroughCI pat cs).map (· + 1)

/-- Try to match `<tag[^>]*>.*?</tag>` (case-insensitive, dot-all) at
`c :: cs`; `some n` means the match consumes `c` plus `n` characters of
`cs`. -/
def tryBlockMatchTail (tag : List Char) (c : Char) (cs : List Char) : Option Nat :=
  if matchPrefixCI ('<' :: tag) (c :: cs) then
    let rest := cs.drop tag.length
    match findGtIdx rest with
    | none => none
    | some g =>
      let after := rest.drop (g + 1)
      match consumeThroughCI ('<' :: '/' :: (tag ++ ['>'])) after with
      | none => none
      | some k => some (tag.length + g + 1 + k)
  else none

/-- `re.sub(r'<tag[^>]*>.*?</tag>', '', ·)`: leftmost non-overlapping
removal of whole `tag` blocks. -/
def removeBlocksAux (tag : List Char) : Nat → List Char → List Char
  | 0, l => l
  | _ + 1, [] => []
  | fuel + 1, c :: cs =>
    match tryBlockMatchTail tag c cs with
    | some n => removeBlocksAux tag fuel (cs.drop n)
    | none => c :: removeBlocksAux tag fuel cs

def removeBlocks (tag : List Char) (l : List Char) : List Char :=
  removeBlocksAux tag l.length l

/-- The block-level tag alternation `(br|p|div|tr|li|h[1-6])`.  No
alternative is a prefix of another, so first-match equals regex
alternation semantics. -/
def blockTagAlts : List (List Char) :=
  [['b', 'r'], ['p'], ['d', 'i', 'v'], ['t', 'r'], ['l', 'i'],
   ['h', '1'], ['h', '2'], ['h', '3'], ['h', '4'], ['h', '5'], ['h', '6']]

/-- Try to match `(br|p|div|tr|li|h[1-6])[^>]*>` (case-insensitive) at `cs`
(the character after a `'<'`); `some n` is the count consumed from `cs`. -/
def tryAltMatch (cs : List Char) : Option Nat :=
  match blockTagAlts.find? (fun alt => matchPrefixCI alt cs) with
  | none => none
  | some alt =>
    match findGtIdx (cs.drop alt.length) with
    | some g => some (alt.length + g + 1)
    | none => none

/-- `re.sub(r'<(br|p|div|tr|li|h[1-6])[^>]*>', '\n', ·, re.IGNORECASE)`. -/
def blockToNewlineAux : Nat → List Char → List Char
  | 0, l => l
  | _ + 1, [] => []
  | fuel + 1, c :: cs =>
    if c = '<' then
      match tryAltMatch cs with
      | some n => '\n' :: blockToNewlineAux fuel (cs.drop n)
      | none => c :: blockToNewlineAux fuel cs
    else c :: blockToNewlineAux fuel cs

def blockToNewline (l : List Char) : List Char := blockToNewlineAux l.length l

/-- Try to match `<[^>]+>` at `c :: cs`: `c = '<'` and the first `'>'` of
`cs` sits at index `g ≥ 1`; `some n` is the count consumed from `cs`. -/
def tryTagTail (c : Char) (cs : List Char) : Option Nat :=
  if c = '<' then
    match findGtIdx cs with
    | some g => if 1 ≤ g then some (g + 1) else none
    | none => none
  else none

/-- `re.sub(r'<[^>]+>', '', ·)`: strip all remaining tags. -/
def stripTagsAux : Nat → List Char → List Char
  | 0, l => l
  | _ + 1, [] => []
  | fuel + 1, c :: cs =>
    match tryTagTail c cs with
    | some n => stripTagsAux fuel (cs.drop n)
    | none => c :: stripTagsAux fuel cs

def stripTags (l : List Char) : List Char := stripTagsAux l.length l

/-- Decimal digit value. -/
def digitVal (c : Char) : Option Nat :=
  if c.isDigit then some (c.toNat - 48) else none

/-- Hexadecimal digit value. -/
def hexVal (c : Char) : Option Nat :=
  if c.isDigit then some (c.toNat - 48)
  else if 'a' ≤ c ∧ c ≤ 'f' then some (c.toNat - 87)
  else if 'A' ≤ c ∧ c ≤ 'F' then some (c.toNat - 55)
  else none

/-- Accumulate digits of a numeric character reference up to a closing
`';'`; `some (v, n)` is the value and the count consumed including the
semicolon. -/
def numRef (val? : Char → Option Nat) (base : Nat) :
    List Char → Nat → Nat → Option (Nat × Nat)
  | [], _, _ => none
  | c :: cs, acc, cnt =>
    match val? c with
    | some d => numRef val? base cs (acc * base + d) (cnt + 1)
    | none => if c = ';' ∧ 0 < cnt then some (acc, cnt + 1) else none

/-- Named character references handled by this embedding of
`html.unescape`: the common XML entities, with and without the closing
semicolon where HTML5 allows it.  (`html.unescape` knows the full HTML5
table; this development only relies on its behaviour on these references
and on entity-free text.) -/
def entityTable : List (List Char × Char) :=
  [(['a', 'm', 'p', ';'], '&'), (['l', 't', ';'], '<'), (['g', 't', ';'], '>'),
   (['q', 'u', 'o', 't', ';'], '"'), (['a', 'p', 'o', 's', ';'], Char.ofNat 39),
   (['n', 'b', 's', 'p', ';'], Char.ofNat 160),
   (['a', 'm', 'p'], '&'), (['l', 't'], '<'), (['g', 't'], '>'),
   (['q', 'u', 'o', 't'], '"')]

/-- Try to decode one character reference at `cs` (the characters after an
`'&'`): numeric `#NNN;` / `#xHH;` or a named reference from
`entityTable`. -/
def tryEntity (cs : List Char) : Option (Char × Nat) :=
  match cs with
  | '#' :: rest =>
    (match rest with
     | c :: rest2 =>
       if c = 'x' ∨ c = 'X' then
         (numRef hexVal 16 rest2 0 0).map (fun p => (Char.ofNat p.1, p.2 + 2))
       else (numRef digitVal 10 rest 0 0).map (fun p => (Char.ofNat p.1, p.2 + 1))
     | [] => none)
  | _ =>
    match entityTable.find? (fun e => e.1.isPrefixOf cs) with
    | some e => some (e.2, e.1.length)
    | none => none

/-- Embeds `html.unescape` (restricted as documented at `entityTable`). -/
def htmlUnescapeAux : Nat → List Char → List Char
  | 0, l => l
  | _ + 1, [] => []
  | fuel + 1, c :: cs =>
    if c = '&' then
      match tryEntity cs with
      | some en => en.1 :: htmlUnescapeAux fuel (cs.drop en.2)
      | none => c :: htmlUnescapeAux fuel cs
    else c :: htmlUnescapeAux fuel cs

def htmlUnescapeL (l : List Char) : List Char := htmlUnescapeAux l.length l

def isSpaceTab (c : Char) : Bool := c = ' ' ∨ c = '\t'

/-- `re.sub(r'[ \t]+', ' ', ·)`. -/
def collapseSpaceTabAux : Nat → List Char → List Char
  | 0, l => l
  | _ + 1, [] => []
  | fuel + 1, c :: cs =>
    if isSpaceTab c then ' ' :: collapseSpaceTabAux fuel (cs.dropWhile isSpaceTab)
    else c :: collapseSpaceTabAux fuel cs

def collapseSpaceTab (l : List Char) : List Char := collapseSpaceTabAux l.length l

/-- Index of the last `'\n'` in `l`, if any. -/
def lastIdxNl : List Char → Option Nat
  | [] => none
  | c :: cs =>
    match lastIdxNl cs with
    | some j => some (j + 1)
    | none => if c = '\n' then some 0 else none

/-- `re.sub(r'\n\s*\n', '\n\n', ·)`: a match starts at a `'\n'` whose
following maximal whitespace run contains another `'\n'`; greedy `\s*` with
backtracking makes the match end at the last `'\n'` of that run. -/
def collapseNlAux : Nat → List Char → List Char
  | 0, l => l
  | _ + 1, [] => []
  | fuel + 1, c :: cs =>
    if c = '\n' then
      match lastIdxNl (cs.takeWhile isPySpace) with
      | some j => '\n' :: '\n' :: collapseNlAux fuel (cs.drop (j + 1))
      | none => c :: collapseNlAux fuel cs
    else c :: collapseNlAux fuel cs

def collapseNl (l : List Char) : List Char := collapseNlAux l.length l

/-- `"\n\n[Content truncated...]"`, the truncation marker. -/
def truncationMarker : List Char := ("\n\n[Content truncated...]").data

/-- The normalization pipeline of `_strip_html_to_text` before truncation:
script/style removal, block tags to newlines, tag stripping, entity
decoding, whitespace collapsing, strip. -/
def stripHtmlCore (l : List Char) : List Char :=
  let t1 := removeBlocks (['s', 'c', 'r', 'i', 'p', 't']) l
  let t2 := removeBlocks (['s', 't', 'y', 'l', 'e']) t1
  let t3 := blockToNewline t2
  let t4 := stripTags t3
  let t5 := htmlUnescapeL t4
  let t6 := collapseSpaceTab t5
  let t7 := collapseNl t6
  pyStripList t7

/-- Embeds `_strip_html_to_text` (messages.py lines 851-874). -/
def stripHtmlToText (html : String) (maxLength : Nat := 5000) : String :=
  if html = "" then "" else
  let t := stripHtmlCore html.data
  if maxLength < t.length then String.mk (t.take maxLength ++ truncationMarker)
  else String.mk t

/-! ### The message upsert skeleton shared by all four sync paths. -/

/-- The batched existence pre-check
`select(Message).where(Message.message_id.in_(page_msg_ids))`
(messages.py lines 622-626, 1051-1055, 1268-1272, 1420-1424): the ids of the
stored rows loaded into `existing_by_id`. -/
def buildExistingIds (dbMsgs : List Message) (pageIds : List String) : List String :=
  (dbMsgs.filter (fun r => pageIds.contains r.message_id)).map (fun r => r.message_id)

/-- The volatile-field refresh applied to an already-stored row when its
`message_id` is re-observed: only `is_read` and `media` are assigned
(messages.py lines 633-636, 1092-1095, 1303-1306, 1458-1461). -/
def applyVolatile (r : Message) (m : ApiMsg) : Message :=
  { r with is_read := m.readStatus, media := mediaOrNone m.messageMedia }

/-- The per-conversation message loop shared (textually identical up to the
row constructor) by `refresh_thread_messages`, `_sync_from_members_full`,
the incremental branch of `_do_sync_messages` and its FROM_EBAY branch:
skip messages with a falsy `messageId`; refresh volatile fields of rows in
the pre-loaded `snapshot`; construct and add a new row otherwise.  Returns
the updated message table and the number of inserts. -/
def upsertStep (mkNew : String → ApiMsg → Message) (snapshot : List String)
    (st : List Message × Nat) (m : ApiMsg) : List Message × Nat :=
  match truthy m.messageId with
  | none => st
  | some mid =>
    if snapshot.contains mid then
      (st.1.map (fun r => if r.message_id = mid then applyVolatile r m else r), st.2)
    else
      (st.1 ++ [mkNew mid m], st.2 + 1)

def upsertConvMsgs (mkNew : String → ApiMsg → Message) (snapshot : List String)
    (msgsDb : List Message) (msgs : List ApiMsg) : List Message × Nat :=
  msgs.foldl (upsertStep mkNew snapshot) (msgsDb, 0)

/-! ### Thread upsert and rollups. -/

/-- `m.get("createdDate") or ""` — the sort/max key used for message
ordering and for picking the latest message of a conversation. -/
def createdKey (m : ApiMsg) : String := pyOrD m.createdDate ""

/-- Python `max(msgs, key=...)`: first element with maximal key. -/
def maxByCreatedKey : List ApiMsg → Option ApiMsg
  | [] => none
  | m :: rest =>
    some (rest.foldl (fun best x => if createdKey best < createdKey x then x else best) m)

/-- Python character slicing `s[:n]`. -/
def pyTake (s : String) (n : Nat) : String := String.mk (s.data.take n)

/-- The member-channel `last_message_preview`
(`(body_preview[:500] + "…") if len > 500 else (body_preview or None)`). -/
def memberPreview (lastMsg : ApiMsg) : Option String :=
  let bp := pyStrip (pyOrD lastMsg.messageBody "")
  if 500 < bp.length then some (pyTake bp 500 ++ "…")
  else if bp = "" then none else some bp

/-- The FROM_EBAY `last_message_preview` (messages.py line 1487), which
strips HTML for the preview. -/
def ebayPreview (lastMsg : ApiMsg) : Option String :=
  let bp := pyStrip (pyOrD lastMsg.messageBody "")
  if 500 < bp.length then some (pyTake (stripHtmlToText bp) 497 ++ "…")
  else if bp.data.contains '<' then some (stripHtmlToText bp)
  else if bp = "" then none else some bp

/-- The member-channel rollup assignment executed under `if msgs:` after the
message loop (messages.py lines 667-673, 1127-1133, 1338-1344): note that
`message_count`/`unread_count` are set from the fetched list `msgs`,
not from the stored rows. -/
def memberRollup (pI : String → Option Nat) (t : MessageThread) (msgs : List ApiMsg) :
    MessageThread :=
  match maxByCreatedKey msgs with
  | none => t
  | some lastMsg =>
    { t with
      last_message_at := parseIsoOpt pI lastMsg.createdDate
      last_message_preview := memberPreview lastMsg
      message_count := msgs.length
      unread_count := (msgs.filter (fun x => ¬ x.readStatus)).length }

/-- The FROM_EBAY rollup (messages.py lines 1483-1489). -/
def ebayRollup (pI : String → Option Nat) (t : MessageThread) (msgs : List ApiMsg) :
    MessageThread :=
  match maxByCreatedKey msgs with
  | none => t
  | some lastMsg =>
    { t with
      last_message_at := parseIsoOpt pI lastMsg.createdDate
      last_message_preview := ebayPreview lastMsg
      message_count := msgs.length
      unread_count := (msgs.filter (fun x => ¬ x.readStatus)).length }

/-- A new member-channel `MessageThread` row (messages.py lines 1073-1080 /
1284-1291). -/
def newMemberThread (s : Settings) (pI : String → Option Nat) (now : Nat)
    (cid : String) (conv : ApiConversation) : MessageThread :=
  let buyer0 := buyerUsernameFromConversation s conv
  let buyer := if isSellerUsername s buyer0 then none else buyer0
  { thread_id := cid
    buyer_username := buyer
    ebay_item_id := if conv.referenceType = some "LISTING" then conv.referenceId else none
    ebay_order_id := none
    sku := none
    is_flagged := false
    last_message_preview := none
    last_message_at := none
    message_count := 0
    unread_count := 0
    created_at := parseCreated pI now conv.createdDate }

/-- Member-channel thread upsert (messages.py lines 1071-1086 / 1282-1297):
create the thread if absent, else fill `buyer_username` only when it was
previously falsy.  Returns the updated table and whether a row was
created. -/
def upsertMemberThread (s : Settings) (pI : String → Option Nat) (now : Nat)
    (threads : List MessageThread) (cid : String) (conv : ApiConversation) :
    List MessageThread × Bool :=
  let buyer0 := buyerUsernameFromConversation s conv
  let buyer := if isSellerUsername s buyer0 then none else buyer0
  match threads.find? (fun t => t.thread_id = cid) with
  | none => (threads ++ [newMemberThread s pI now cid conv], true)
  | some _ =>
    (threads.map (fun t =>
      if t.thread_id = cid then
        (if (truthy t.buyer_username) = none ∧ buyer.isSome then
          { t with buyer_username := buyer } else t)
      else t), false)

/-- A new FROM_EBAY `MessageThread` row (messages.py lines 1438-1452). -/
def newEbayThread (pI : String → Option Nat) (now : Nat)
    (cid : String) (conv : ApiConversation) : MessageThread :=
  { thread_id := cid
    buyer_username := some "eBay"
    ebay_item_id := if conv.referenceType = some "LISTING" then conv.referenceId else none
    ebay_order_id := if conv.referenceType = some "ORDER" then conv.referenceId else none
    sku := none
    is_flagged := false
    last_message_preview := none
    last_message_at := none
    message_count := 0
    unread_count := 0
    created_at := parseCreated pI now conv.createdDate }

/-- A new FROM_EBAY `Message` row (messages.py lines 1463-1481): HTML
bodies are stripped, `sender_type` is the literal written by the code. -/
def newEbayMessage (pI : String → Option Nat) (now : Nat)
    (tid mid : String) (m : ApiMsg) : Message :=
  let rawBody := pyOrD m.messageBody ""
  let body := if rawBody.data.contains '<' then stripHtmlToText rawBody else rawBody
  let sender := pyStrip (pyOrD m.senderUsername "eBay")
  { message_id := mid
    thread_id := tid
    sender_type := "ebay"
    sender_username := some sender
    subject := apiSubject m
    content := body
    media := mediaOrNone m.messageMedia
    is_read := m.readStatus
    detected_language := none
    translated_content := none
    ebay_created_at := parseCreated pI now m.createdDate }

/-! ### Page-level processing. -/

/-- One page of the conversations API together with the per-conversation
message-fetch outcomes produced by the bounded-concurrency
`asyncio.gather(..., return_exceptions=True)` fan-out: `Except.error ()`
models a fetch that raised.  `total` is `conv_page.get("total") or 0` and
`hasNext` the truthiness of `conv_page.get("next")`. -/
structure ConvPage where
  conversations : List (ApiConversation × Except Unit (List ApiMsg))
  total : Nat
  hasNext : Bool

/-- Accumulator for a sync pass: the session state plus the running
counters. -/
structure SyncAcc where
  db : DB
  threadsSynced : Nat
  messagesSynced : Nat
  deriving DecidableEq

/-- The conversation ids for which a per-conversation message fetch is
issued on a page: every conversation with a truthy `conversationId`
(messages.py lines 1036, 1403 — the `conv_ids` list handed to the
`asyncio.gather` fan-out). -/
def pageFetchIds (conversations : List ApiConversation) : List String :=
  conversations.filterMap (fun c => truthy c.conversationId)

/-- The batched id collection over one page: all truthy message ids from
the conversations whose fetch succeeded (messages.py lines 1042-1050 /
1411-1419). -/
def convPageMsgIds (conversations : List (ApiConversation × Except Unit (List ApiMsg))) :
    List String :=
  conversations.foldl (fun acc cf =>
    match truthy cf.1.conversationId, cf.2 with
    | some _, Except.ok msgs => acc ++ msgs.filterMap (fun m => truthy m.messageId)
    | _, _ => acc) []

/-- Processing of one member conversation against a pre-loaded existence
snapshot: thread upsert, message loop, rollup (messages.py lines 1056-1133
and 1274-1344). -/
def processOneMemberConv (s : Settings) (pI : String → Option Nat) (now : Nat)
    (snapshot : List String) (acc : SyncAcc) (cid : String)
    (conv : ApiConversation) (msgs : List ApiMsg) : SyncAcc :=
  let sellerU := normalizedSeller s
  let tu := upsertMemberThread s pI now acc.db.threads cid conv
  let mu := upsertConvMsgs (newMemberMessage sellerU pI now cid) snapshot acc.db.messages msgs
  let threads2 :=
    if msgs ≠ [] then
      tu.1.map (fun t => if t.thread_id = cid then memberRollup pI t msgs else t)
    else tu.1
  { db := { threads := threads2, messages := mu.1 }
    threadsSynced := acc.threadsSynced + (if tu.2 then 1 else 0)
    messagesSynced := acc.messagesSynced + mu.2 }

/-- One full-sync member page (messages.py lines 1042-1133): conversations
with a falsy id or a failed message fetch are skipped entirely. -/
def processMemberFullPage (s : Settings) (pI : String → Option Nat) (now : Nat)
    (acc : SyncAcc) (page : ConvPage) : SyncAcc :=
  let snapshot := buildExistingIds acc.db.messages (convPageMsgIds page.conversations)
  page.conversations.foldl (fun a cf =>
    match truthy cf.1.conversationId with
    | none => a
    | some cid =>
      match cf.2 with
      | Except.error _ => a
      | Except.ok msgs => processOneMemberConv s pI now snapshot a cid cf.1 msgs) acc

/-- The incremental-mode merge of fetch results: per conversation, drop
messages with a falsy id, dedupe by `messageId` keeping the first
occurrence (messages.py lines 1248-1258). -/
def dedupeByMid (msgs : List ApiMsg) : List ApiMsg :=
  (msgs.foldl (fun (st : List ApiMsg × List String) m =>
    match truthy m.messageId with
    | some mid => if st.2.contains mid then st else (st.1 ++ [m], st.2 ++ [mid])
    | none => st) ([], [])).1

/-- Stable insertion of `x` into a key-sorted list: `x` goes before the
first element whose key is not smaller, so elements that came earlier in
the original list stay first among equal keys. -/
def insertByCreated (x : ApiMsg) : List ApiMsg → List ApiMsg
  | [] => [x]
  | y :: ys =>
    if createdKey y < createdKey x then y :: insertByCreated x ys else x :: y :: ys

/-- `msgs.sort(key=lambda x: x.get("createdDate") or "")` — Python's stable
ascending sort (messages.py lines 1259-1260), as a stable insertion sort. -/
def sortByCreated (msgs : List ApiMsg) : List ApiMsg :=
  msgs.foldr insertByCreated []

/-- The dict comprehension
`{c.get("conversationId"): c for c in member_convs if c.get("conversationId")}`
(messages.py line 1224): keys in first-occurrence order, later duplicates
overwrite the value. -/
def convDict (convs : List ApiConversation) : List (String × ApiConversation) :=
  convs.foldl (fun acc c =>
    match truthy c.conversationId with
    | none => acc
    | some cid =>
      if (acc.find? (fun p => p.1 = cid)).isSome then
        acc.map (fun p => if p.1 = cid then (cid, c) else p)
      else acc ++ [(cid, c)]) []

/-- The incremental member batch (messages.py lines 1262-1344): one
existence snapshot for the whole batch, then per-conversation processing.
Each list entry is `(cid, conversation, merged message list)` where the
merged list is `[]` when the conversation's fetch failed. -/
def syncMemberBatch (s : Settings) (pI : String → Option Nat) (now : Nat)
    (db : DB) (convs : List (String × ApiConversation × List ApiMsg)) : SyncAcc :=
  let pageIds := convs.foldl (fun acc c =>
    acc ++ c.2.2.filterMap (fun m => truthy m.messageId)) []
  let snapshot := buildExistingIds db.messages pageIds
  convs.foldl (fun acc c => processOneMemberConv s pI now snapshot acc c.1 c.2.1 c.2.2)
    { db := db, threadsSynced := 0, messagesSynced := 0 }

/-- Processing of one FROM_EBAY conversation (messages.py lines 1428-1489):
thread created only if absent (no buyer-name refresh), shared message
upsert skeleton, FROM_EBAY rollup. -/
def processOneEbayConv (pI : String → Option Nat) (now : Nat)
    (snapshot : List String) (acc : SyncAcc)
    (conv : ApiConversation) (fetchRes : Except Unit (List ApiMsg)) : SyncAcc :=
  match truthy conv.conversationId with
  | none => acc
  | some cid =>
    match fetchRes with
    | Except.error _ => acc
    | Except.ok msgs =>
      let tu : List MessageThread × Bool :=
        match acc.db.threads.find? (fun t => t.thread_id = cid) with
        | some _ => (acc.db.threads, false)
        | none => (acc.db.threads ++ [newEbayThread pI now cid conv], true)
      let mu := upsertConvMsgs (newEbayMessage pI now cid) snapshot acc.db.messages msgs
      let threads2 :=
        if msgs ≠ [] then
          tu.1.map (fun t => if t.thread_id = cid then ebayRollup pI t msgs else t)
        else tu.1
      { db := { threads := threads2, messages := mu.1 }
        threadsSynced := acc.threadsSynced + (if tu.2 then 1 else 0)
        messagesSynced := acc.messagesSynced + mu.2 }

/-- One FROM_EBAY page (messages.py lines 1392-1489); the counters are the
per-page `page_threads`/`page_messages`. -/
def processEbayPage (pI : String → Option Nat) (now : Nat)
    (db : DB) (page : ConvPage) : SyncAcc :=
  let snapshot := buildExistingIds db.messages (convPageMsgIds page.conversations)
  page.conversations.foldl (fun acc cf => processOneEbayConv pI now snapshot acc cf.1 cf.2)
    { db := db, threadsSynced := 0, messagesSynced := 0 }

/-! ### Exceptions, the FROM_EBAY commit-per-page loop,
`_sync_from_members_full`, and `_do_sync_messages`. -/

/-- The Python exception classes distinguished by the sync code's handlers:
FastAPI `HTTPException` (re-raised as-is), `httpx.HTTPStatusError`
(carrying the response status), SQLAlchemy `IntegrityError`, and any other
exception. -/
inductive PyExc where
  | httpException (code : Nat) (detail : String)
  | httpStatusError (code : Nat)
  | integrityError
  | other (msg : String)
  deriving DecidableEq

/-- The actionable 403 detail raised by `_sync_from_members_full`
(messages.py lines 1020-1023). -/
def detailForbiddenMember : String :=
  "eBay denied access to messages. Reconnect eBay in Settings so the app requests the message scope (commerce.message)."

/-- The committed state and counters of the FROM_EBAY phase.  `db` and
`cursors` are the COMMITTED values: the loop commits after every page, so
they advance page by page; a fetch error leaves them at the last committed
page.  `errored` records that the local `except` handlers fired. -/
structure EbayRun where
  db : DB
  cursors : Cursors
  ebayThreads : Nat
  ebayMessages : Nat
  reachedEnd : Bool
  errored : Bool
  deriving DecidableEq

/-- The FROM_EBAY pagination loop (messages.py lines 1384-1507): fetch a
page, process it, advance the offset by `limit`, persist the offset cursor
and commit — all per page.  `fetch` models
`fetch_message_conversations_page(..., conversation_type="FROM_EBAY")` at a
given offset; an error models an exception caught by the surrounding
handlers (lines 1517-1520).  The fuel is `max_pages`
(`pages_fetched < max_pages`). -/
def ebayLoopGo (pI : String → Option Nat) (now : Nat) (limit : Nat)
    (fetch : Nat → Except Nat ConvPage) :
    Nat → Nat → EbayRun → EbayRun
  | 0, _, st => st
  | fuel + 1, offset, st =>
    match fetch offset with
    | Except.error _ => { st with errored := true }
    | Except.ok page =>
      if page.conversations.isEmpty then st
      else
        let acc := processEbayPage pI now st.db page
        let offset2 := offset + limit
        let cursors2 := setCursor st.cursors "ebay_messages_offset" (toString offset2)
        let st2 : EbayRun :=
          { db := acc.db, cursors := cursors2
            ebayThreads := st.ebayThreads + acc.threadsSynced
            ebayMessages := st.ebayMessages + acc.messagesSynced
            reachedEnd := st.reachedEnd, errored := st.errored }
        if page.total ≤ offset2 ∨ ¬ page.hasNext then { st2 with reachedEnd := true }
        else ebayLoopGo pI now limit fetch fuel offset2 st2

/-- The whole FROM_EBAY phase (messages.py lines 1366-1520): load the
persisted offset (`int(...)`; the stored values are always numeric strings
written by this code, so the parse cannot fail on reachable states),
run up to `5 if full_sync else 1` pages, and reset the offset cursor to
`"0"` when the end of the historical data was reached. -/
def ebaySyncPhase (pI : String → Option Nat) (now : Nat) (limit : Nat)
    (fullSync : Bool) (fetch : Nat → Except Nat ConvPage)
    (db : DB) (cursors : Cursors) : EbayRun :=
  let offset0 :=
    match getCursor cursors "ebay_messages_offset" with
    | some v => pyInt v
    | none => 0
  let maxPages := if fullSync then 5 else 1
  let st0 : EbayRun :=
    { db := db, cursors := cursors, ebayThreads := 0, ebayMessages := 0,
      reachedEnd := false, errored := false }
  let st := ebayLoopGo pI now limit fetch maxPages offset0 st0
  if st.reachedEnd ∧ (getCursor st.cursors "ebay_messages_offset").isSome then
    { st with cursors := setCursor st.cursors "ebay_messages_offset" "0" }
  else st

/-- `_sync_from_members_full` (messages.py lines 999-1139): paginate all
member conversations from offset 0, process each page, commit once at the
end.  A 403 on the conversation-page fetch becomes a distinct
`HTTPException 403`; any other `httpx.HTTPStatusError` propagates.  The
fuel bounds the pagination (the modelled runs never exhaust it). -/
def memberFullGo (s : Settings) (pI : String → Option Nat) (now : Nat)
    (limit : Nat) (fetch : Nat → Except Nat ConvPage) :
    Nat → Nat → SyncAcc → Except PyExc SyncAcc
  | 0, _, acc => Except.ok acc
  | fuel + 1, offset, acc =>
    match fetch offset with
    | Except.error code =>
      if code = 403 then Except.error (PyExc.httpException 403 detailForbiddenMember)
      else Except.error (PyExc.httpStatusError code)
    | Except.ok page =>
      if page.conversations.isEmpty then Except.ok acc
      else
        let acc2 := processMemberFullPage s pI now acc page
        let offset2 := offset + limit
        if page.total ≤ offset2 ∨ ¬ page.hasNext then Except.ok acc2
        else memberFullGo s pI now limit fetch fuel offset2 acc2

def syncFromMembersFull (s : Settings) (pI : String → Option Nat) (now : Nat)
    (limit : Nat) (pageBound : Nat) (fetch : Nat → Except Nat ConvPage)
    (db : DB) : Except PyExc SyncAcc :=
  memberFullGo s pI now limit fetch pageBound 0
    { db := db, threadsSynced := 0, messagesSynced := 0 }

/-- The response body of the sync endpoint (messages.py lines 1583-1589). -/
structure SyncResponse where
  message : String
  synced : Nat
  threads_synced : Nat
  ebay_threads_synced : Nat
  ebay_messages_synced : Nat
  deriving DecidableEq

/-- Deletion of transient `stub-` placeholder threads and their messages at
the start of every sync (messages.py lines 1150-1151). -/
def purgeStubs (db : DB) : DB :=
  { threads := db.threads.filter (fun t => ¬ pyStartsWith t.thread_id "stub-")
    messages := db.messages.filter (fun m => ¬ pyStartsWith m.thread_id "stub-") }

/-- The staleness window `timedelta(minutes=10)` of the periodic full sync,
with timestamps modelled in seconds. -/
def staleSeconds : Nat := 600

/-- The outer exception mapping of `_do_sync_messages` (messages.py lines
1537-1553): `HTTPException` re-raised, `IntegrityError` surfaced as a 409
conflict, everything else (including `httpx.HTTPStatusError`) as a generic
500.  The Python 500 detail interpolates `str(e)`; the embedding renders
the status-error case as shown. -/
def mapSyncError : PyExc → PyExc
  | PyExc.httpException c d => PyExc.httpException c d
  | PyExc.integrityError =>
    PyExc.httpException 409 "Sync conflict (duplicate). Please try again."
  | PyExc.httpStatusError c =>
    PyExc.httpException 500 ("Sync failed: HTTP status " ++ toString c)
  | PyExc.other m => PyExc.httpException 500 ("Sync failed: " ++ m)

/-- All external effects `_do_sync_messages` depends on, as pure values:
the token provider, the paginated member/system conversation fetchers, the
per-conversation member message fetcher (whose failures are swallowed
per conversation by `return_exceptions=True`), and the incremental
conversation-list fetcher.

`incrConvs` embeds `fetch_all_conversations` — imported from
`app.services.ebay_client` but absent from the shipped source.  Modelled
from the spec: the Marketplace Client is a thin paginated wrapper that
performs no retries and propagates HTTP 403 as a distinct forbidden
condition; hence it surfaces as an `httpx.HTTPStatusError` with the
response status, exactly like the sibling fetchers in `ebay_client.py`
(`r.raise_for_status()`). -/
structure SyncEnv where
  token : Except PyExc Unit
  memberFetch : Nat → Except Nat ConvPage
  incrConvs : Option String → Except Nat (List ApiConversation)
  memberMsgFetch : String → Except Unit (List ApiMsg)
  ebayFetch : Nat → Except Nat ConvPage

/-- The result of one `_do_sync_messages` invocation: the response or the
mapped exception, together with the COMMITTED database and cursor store.
On an exception the session is rolled back, so the committed state is
whatever the already-executed commits produced. -/
structure SyncOutcome where
  result : Except PyExc SyncResponse
  db : DB
  cursors : Cursors

/-- Embeds `_do_sync_messages` (messages.py lines 1142-1589).
Parameters: `pI`/`now` abstract datetime parsing and `utcnow`, `nowIso`
is the `now_utc` cursor string computed at the end, `syncStartIso` the
`sync_start_time` string computed at the start, `memberPageBound` the fuel
for the member full-sync pagination. -/
def doSyncMessages (s : Settings) (pI : String → Option Nat) (now : Nat)
    (nowIso syncStartIso : String) (memberPageBound : Nat)
    (env : SyncEnv) (fullSync : Bool) (db0 : DB) (cursors0 : Cursors) :
    SyncOutcome :=
  -- stub purge, committed immediately (lines 1149-1152)
  let db1 := purgeStubs db0
  match env.token with
  | Except.error e =>
    { result := Except.error
        (match e with
         | PyExc.httpException c d => PyExc.httpException c d
         | PyExc.httpStatusError c =>
           PyExc.httpException 500 ("Failed to get eBay token: HTTP status " ++ toString c)
         | PyExc.integrityError => PyExc.httpException 500 "Failed to get eBay token: IntegrityError"
         | PyExc.other m => PyExc.httpException 500 ("Failed to get eBay token: " ++ m))
      db := db1, cursors := cursors0 }
  | Except.ok _ =>
    let limit : Nat := 50
    -- periodic-full decision (lines 1182-1195)
    let lastFullAt := parseIsoOpt pI (truthy (getCursor cursors0 "messages_last_full_sync_at"))
    let needPeriodicFull : Bool :=
      if fullSync then false
      else
        match lastFullAt with
        | none => true
        | some t => if staleSeconds < now - t then true else false
    -- member phase; on error the committed state is carried out unchanged
    let memberPhase : Except PyExc (SyncAcc × Bool) :=
      if fullSync then
        match syncFromMembersFull s pI now limit memberPageBound env.memberFetch db1 with
        | Except.error e => Except.error e
        | Except.ok acc => Except.ok (acc, true)
      else
        let startTime := truthy (getCursor cursors0 "messages_member_last_sync_at")
        match env.incrConvs startTime with
        | Except.error code => Except.error (PyExc.httpStatusError code)
        | Except.ok memberConvs =>
          let allConvs := convDict memberConvs
          let batch : SyncAcc :=
            if allConvs = [] then { db := db1, threadsSynced := 0, messagesSynced := 0 }
            else
              syncMemberBatch s pI now db1
                (allConvs.map (fun p =>
                  (p.1, p.2,
                   match env.memberMsgFetch p.1 with
                   | Except.error _ => []
                   | Except.ok msgs => sortByCreated (dedupeByMid msgs))))
          -- commit (line 1232 / 1357), then periodic full if due (lines 1359-1364)
          if needPeriodicFull then
            match syncFromMembersFull s pI now limit memberPageBound env.memberFetch batch.db with
            | Except.error e => Except.error e
            | Except.ok acc2 =>
              Except.ok
                ({ db := acc2.db
                   threadsSynced := batch.threadsSynced + acc2.threadsSynced
                   messagesSynced := batch.messagesSynced + acc2.messagesSynced }, true)
          else Except.ok (batch, false)
    match memberPhase with
    | Except.error e =>
      -- member failures propagate to the outer handlers; the incremental
      -- batch (if any) was rolled back, so only the purge commit stands
      { result := Except.error (mapSyncError e), db := db1, cursors := cursors0 }
    | Except.ok (memberAcc, ranFull) =>
      -- member work committed here
      let dbMember := memberAcc.db
      -- FROM_EBAY phase with per-page commits and swallowed errors
      let er := ebaySyncPhase pI now limit fullSync env.ebayFetch dbMember cursors0
      let threadsTotal :=
        if er.errored then memberAcc.threadsSynced
        else memberAcc.threadsSynced + er.ebayThreads
      let messagesTotal :=
        if er.errored then memberAcc.messagesSynced
        else memberAcc.messagesSynced + er.ebayMessages
      -- cursor updates and final commit (lines 1522-1536)
      let cursors2 := setCursor er.cursors "messages_last_sync_at" nowIso
      let cursors3 := setCursor cursors2 "messages_member_last_sync_at" syncStartIso
      let cursors4 :=
        if ranFull then setCursor cursors3 "messages_last_full_sync_at" nowIso else cursors3
      let msg :=
        if threadsTotal ≠ 0 ∨ messagesTotal ≠ 0 then
          "Synced " ++ toString threadsTotal ++ " thread(s), "
            ++ toString messagesTotal ++ " message(s)."
        else "No new conversations or messages to sync."
      { result := Except.ok
          { message := msg
            synced := messagesTotal
            threads_synced := threadsTotal
            ebay_threads_synced := er.ebayThreads
            ebay_messages_synced := er.ebayMessages }
        db := er.db, cursors := cursors4 }

/-! ### The sync coordinator: single-flight lock and status endpoint. -/

/-- The module-level coordination state: `_sync_lock.locked()` and the
`_sync_in_progress` flag (messages.py lines 11-12). -/
structure SyncGlobals where
  lockLocked : Bool
  inProgress : Bool
  deriving DecidableEq

/-- The response of `GET /sync-status` (messages.py lines 949-971):
`is_syncing` reads the global flag; the unread count is a direct count
query, not a cached rollup. -/
structure SyncStatusResp where
  last_sync_at : Option String
  is_syncing : Bool
  total_unread_count : Nat
  deriving DecidableEq

def getSyncStatus (g : SyncGlobals) (cursors : Cursors) (db : DB) : SyncStatusResp :=
  { last_sync_at := truthy (getCursor cursors "messages_last_sync_at")
    is_syncing := g.inProgress
    total_unread_count := (db.messages.filter (fun m => ¬ m.is_read)).length }

/-- Embeds the `sync_messages` endpoint (messages.py lines 974-996).  The
lock check, acquisition, flag set, body and `finally` reset contain no
`await` between check and acquire, so for the single event loop they are
one atomic step; the body `_do_sync_messages` is abstracted as a function
of the globals it observes and the database.  Returns the response, the
resulting database, the final globals, and — when the body ran — the
globals in effect while it ran. -/
def syncMessagesCall (g : SyncGlobals) (db : DB)
    (body : SyncGlobals → DB → Except PyExc SyncResponse × DB) :
    Except PyExc SyncResponse × DB × SyncGlobals × Option SyncGlobals :=
  if g.lockLocked then
    (Except.error (PyExc.httpException 503 "Sync already in progress."), db, g, none)
  else
    let gIn : SyncGlobals := { lockLocked := true, inProgress := true }
    let r := body gIn db
    (r.1, r.2, { lockLocked := false, inProgress := false }, some gIn)

/-- Embeds `refresh_thread_messages` (messages.py lines 589-674): single
conversation refetch and upsert through the same skeleton, 403 surfaced as
a distinct `HTTPException`. -/
def refreshThreadModel (s : Settings) (pI : String → Option Nat) (now : Nat)
    (db : DB) (tid : String) (fetchRes : Except Nat (List ApiMsg)) :
    Except PyExc DB :=
  match db.threads.find? (fun t => t.thread_id = tid) with
  | none => Except.error (PyExc.httpException 404 "Thread not found")
  | some _ =>
    match fetchRes with
    | Except.error code =>
      if code = 403 then
        Except.error (PyExc.httpException 403 "eBay denied access to messages.")
      else Except.error (PyExc.httpStatusError code)
    | Except.ok msgs =>
      let pageIds := msgs.filterMap (fun m => truthy m.messageId)
      let snapshot := buildExistingIds db.messages pageIds
      let sellerU := normalizedSeller s
      let mu := upsertConvMsgs (newRefreshMessage sellerU pI now tid) snapshot db.messages msgs
      let threads1 :=
        if msgs ≠ [] then
          db.threads.map (fun t => if t.thread_id = tid then memberRollup pI t msgs else t)
        else db.threads
      Except.ok { threads := threads1, messages := mu.1 }

/-! ### Derived notions and concrete fixtures used by the verification. -/

/-- `r` differs from `r₀` in at most the volatile fields (`is_read` and
`media`): every other stored column agrees. -/
def volatileOnly (r₀ r : Message) : Prop :=
  r.thread_id = r₀.thread_id ∧ r.sender_type = r₀.sender_type ∧
  r.sender_username = r₀.sender_username ∧ r.subject = r₀.subject ∧
  r.content = r₀.content ∧ r.detected_language = r₀.detected_language ∧
  r.translated_content = r₀.translated_content ∧ r.ebay_created_at = r₀.ebay_created_at

/-- Contiguous-sublist test on character lists. -/
def containsSubL (needle : List Char) : List Char → Bool
  | [] => needle.isEmpty
  | c :: cs => needle.isPrefixOf (c :: cs) || containsSubL needle cs

/-- Substring test used to state the normalizer properties. -/
def containsSub (hay needle : String) : Bool := containsSubL needle.data hay.data

/-- A trivial concrete ISO parser for fixtures: every string unparsable. -/
def pIdNone : String → Option Nat := fun _ => none

/-- Fixture: a stored member message carrying local translation and
read-state edits. -/
def exStored : Message :=
  { message_id := "m1", thread_id := "T1", sender_type := "buyer",
    sender_username := some "alice", subject := some "hi", content := "hello there",
    media := none, is_read := true, detected_language := some "fr",
    translated_content := some "bonjour", ebay_created_at := 5 }

/-- Fixture: the API record re-observing `exStored`'s `message_id` with
`readStatus = false`. -/
def exReApi : ApiMsg :=
  { messageId := some "m1", senderUsername := some "alice", subject := some "hi",
    messageBody := some "hello there", messageMedia := [], readStatus := false,
    createdDate := some "2024-01-02" }

/-- Fixture: an existing thread whose rollups are consistent with its one
stored message `exOldMsg`. -/
def exThread : MessageThread :=
  { thread_id := "T1", buyer_username := some "alice", ebay_item_id := none,
    ebay_order_id := none, sku := none, is_flagged := false,
    last_message_preview := some "prev", last_message_at := some 1,
    message_count := 1, unread_count := 0, created_at := 0 }

/-- Fixture: a stored message of `exThread` whose id does not appear in the
next fetch (e.g. a locally recorded sent message). -/
def exOldMsg : Message :=
  { message_id := "old1", thread_id := "T1", sender_type := "seller",
    sender_username := some "me", subject := none, content := "prev",
    media := none, is_read := true, detected_language := none,
    translated_content := none, ebay_created_at := 1 }

/-- Fixture: the conversation record for `exThread`. -/
def exConv : ApiConversation :=
  { conversationId := some "T1", referenceId := none, referenceType := none,
    createdDate := none, latestSender := some "alice", latestRecipient := some "me" }

/-- Fixture: a single new API message for `exThread`. -/
def exNewApi : ApiMsg :=
  { messageId := some "mNew", senderUsername := some "alice", subject := none,
    messageBody := some "hello", messageMedia := [], readStatus := true,
    createdDate := some "2024-01-03" }

/-- Fixture: the member batch that refutes the rollup-consistency claim. -/
def exBatchOut : SyncAcc :=
  syncMemberBatch ⟨none⟩ pIdNone 7 ⟨[exThread], [exOldMsg]⟩ [("T1", exConv, [exNewApi])]

/-- Fixture: a sync environment whose incremental conversation-list fetch
raises HTTP 403 (token fine, everything else unreached). -/
def exEnv403 : SyncEnv :=
  { token := Except.ok ()
    memberFetch := fun _ => Except.error 0
    incrConvs := fun _ => Except.error 403
    memberMsgFetch := fun _ => Except.ok []
    ebayFetch := fun _ => Except.error 0 }

/-- Fixture: the outcome of an incremental sync against `exEnv403`. -/
def exOut403 : SyncOutcome :=
  doSyncMessages ⟨none⟩ pIdNone 0 "2024Z" "2024S" 1 exEnv403 false ⟨[], []⟩ []

/-- Fixture: a FROM_EBAY conversation whose thread already exists locally. -/
def exEbayConv : ApiConversation :=
  { conversationId := some "E1", referenceId := none, referenceType := none,
    createdDate := none, latestSender := none, latestRecipient := none }

/-- Fixture: an existing local thread for `exEbayConv`. -/
def exEbayThread : MessageThread :=
  { thread_id := "E1", buyer_username := some "eBay", ebay_item_id := none,
    ebay_order_id := none, sku := none, is_flagged := false,
    last_message_preview := none, last_message_at := none,
    message_count := 0, unread_count := 0, created_at := 0 }

/-- Fixture: a successful sync response. -/
def exResp : SyncResponse :=
  { message := "No new conversations or messages to sync.", synced := 0,
    threads_synced := 0, ebay_threads_synced := 0, ebay_messages_synced := 0 }

/-- Fixture: a sync body that completes normally. -/
def exBodyOk : SyncGlobals → DB → Except PyExc SyncResponse × DB :=
  fun _ db => (Except.ok exResp, db)

/-- Fixture: a sync body that raises. -/
def exBodyRaise : SyncGlobals → DB → Except PyExc SyncResponse × DB :=
  fun _ db => (Except.error (PyExc.other "boom"), db)

/-- Fixture: a first FROM_EBAY page announcing more data after it. -/
def exEbayPage : ConvPage :=
  { conversations := [(exEbayConv, Except.ok [exNewApi])], total := 200, hasNext := true }

/-- Fixture: a FROM_EBAY fetch that serves page 1 and then times out. -/
def exEbayFetch : Nat → Except Nat ConvPage :=
  fun o => if o = 0 then Except.ok exEbayPage else Except.error 500

/-- Fixture: a single final member-channel page. -/
def exMemberPage : ConvPage :=
  { conversations := [(exConv, Except.ok [exNewApi])], total := 1, hasNext := false }

/-- Fixture: environment where the member full fetch is denied with 403. -/
def exEnvFull403 : SyncEnv :=
  { token := Except.ok ()
    memberFetch := fun _ => Except.error 403
    incrConvs := fun _ => Except.error 0
    memberMsgFetch := fun _ => Except.ok []
    ebayFetch := fun _ => Except.error 0 }

/-- Fixture: environment where member sync succeeds but every FROM_EBAY
fetch fails transiently. -/
def exEnvEbayErr : SyncEnv :=
  { token := Except.ok ()
    memberFetch := fun _ => Except.ok exMemberPage
    incrConvs := fun _ => Except.error 0
    memberMsgFetch := fun _ => Except.ok []
    ebayFetch := fun _ => Except.error 502 }

/-- Does a sync outcome report overall success (HTTP 200)? -/
def isOkResult : Except PyExc SyncResponse → Bool
  | Except.ok _ => true
  | Except.error _ => false

/-- Fixture: a member message actually sent by the seller account. -/
def exSellerSentApi : ApiMsg :=
  { messageId := some "mSeller", senderUsername := some "TheSeller",
    subject := none, messageBody := some "thanks for purchasing",
    messageMedia := [], readStatus := true, createdDate := some "2024-01-04" }

/-! ## Helper lemmas -/

theorem applyVolatile_message_id (r : Message) (m : ApiMsg) :
    (applyVolatile r m).message_id = r.message_id := rfl

theorem volatileOnly_refl (r : Message) : volatileOnly r r :=
  ⟨rfl, rfl, rfl, rfl, rfl, rfl, rfl, rfl⟩

theorem volatileOnly_applyVolatile (r : Message) (m : ApiMsg) :
    volatileOnly r (applyVolatile r m) :=
  ⟨rfl, rfl, rfl, rfl, rfl, rfl, rfl, rfl⟩

theorem volatileOnly_trans {a b c : Message}
    (h1 : volatileOnly a b) (h2 : volatileOnly b c) : volatileOnly a c := by
  obtain ⟨h11, h12, h13, h14, h15, h16, h17, h18⟩ := h1
  obtain ⟨h21, h22, h23, h24, h25, h26, h27, h28⟩ := h2
  exact ⟨h21.trans h11, h22.trans h12, h23.trans h13, h24.trans h14,
    h25.trans h15, h26.trans h16, h27.trans h17, h28.trans h18⟩

theorem filter_mid_nil_of_not_mem (l : List Message) (mid : String)
    (h : mid ∉ l.map Message.message_id) :
    l.filter (fun r => r.message_id = mid) = [] := by
  induction l with
  | nil => rfl
  | cons r rest ih =>
    simp only [List.map_cons, List.mem_cons, not_or] at h
    rw [List.filter_cons]
    have hr : ¬ (r.message_id = mid) := fun hc => h.1 hc.symm
    simp only [hr, decide_eq_true_eq, if_neg, decide_eq_false_iff_not.mpr hr, Bool.false_eq_true, if_false]
    exact ih h.2

theorem nodup_filter_mid_length_one (l : List Message) (mid : String)
    (hpk : (l.map Message.message_id).Nodup)
    (hmem : mid ∈ l.map Message.message_id) :
    (l.filter (fun r => r.message_id = mid)).length = 1 := by
  induction l with
  | nil => simp at hmem
  | cons r rest ih =>
    simp only [List.map_cons, List.nodup_cons] at hpk
    rw [List.filter_cons]
    rcases List.mem_cons.mp hmem with heq | hmem'
    · have hr : r.message_id = mid := heq.symm
      simp only [decide_eq_true_eq.mpr hr, if_true, List.length_cons]
      rw [filter_mid_nil_of_not_mem rest mid (by rw [← hr]; exact hpk.1)]
      rfl
    · have hr : ¬ (r.message_id = mid) := by
        intro hc
        exact hpk.1 (hc ▸ hmem')
      simp only [decide_eq_false_iff_not.mpr hr, Bool.false_eq_true, if_false]
      exact ih hpk.2 hmem'

theorem length_filter_mid_map (g : Message → Message)
    (hg : ∀ r, (g r).message_id = r.message_id) (l : List Message) (mid : String) :
    ((l.map g).filter (fun r => r.message_id = mid)).length
      = (l.filter (fun r => r.message_id = mid)).length := by
  induction l with
  | nil => rfl
  | cons r rest ih =>
    simp only [List.map_cons, List.filter_cons, hg r]
    by_cases h : r.message_id = mid <;> simp [h, ih]

theorem mem_buildExistingIds_of (dbMsgs : List Message) (pageIds : List String)
    (mid : String) (hpage : pageIds.contains mid = true)
    (hmem : mid ∈ dbMsgs.map Message.message_id) :
    (buildExistingIds dbMsgs pageIds).contains mid = true := by
  rw [List.elem_iff]
  unfold buildExistingIds
  rcases List.mem_map.mp hmem with ⟨r, hr, hrid⟩
  exact List.mem_map.mpr ⟨r, List.mem_filter.mpr ⟨hr, by rw [hrid]; exact hpage⟩, hrid⟩

/-- The mid-focused invariant of the shared upsert fold: rows carrying a
stored `mid` only ever receive volatile refreshes, and their multiplicity
never changes, provided every occurrence of `mid` in the input is covered
by the existence snapshot. -/
theorem upsert_fold_mid_invariant (mkNew : String → ApiMsg → Message)
    (hmk : ∀ mid m, (mkNew mid m).message_id = mid)
    (snapshot : List String) (mid : String) (Q : Message → Prop)
    (hQ : ∀ r m, Q r → Q (applyVolatile r m)) :
    ∀ (msgs : List ApiMsg) (l : List Message) (n : Nat),
      (∀ m ∈ msgs, truthy m.messageId = some mid → snapshot.contains mid = true) →
      (∀ r ∈ l, r.message_id = mid → Q r) →
      ((∀ r ∈ (msgs.foldl (upsertStep mkNew snapshot) (l, n)).1,
          r.message_id = mid → Q r)
       ∧ ((msgs.foldl (upsertStep mkNew snapshot) (l, n)).1.filter
            (fun r => r.message_id = mid)).length
          = (l.filter (fun r => r.message_id = mid)).length) := by
  intro msgs
  induction msgs with
  | nil => intro l n _ hinv; exact ⟨hinv, rfl⟩
  | cons m ms ih =>
    intro l n hs hinv
    simp only [List.foldl_cons]
    have hstail : ∀ m' ∈ ms, truthy m'.messageId = some mid →
        snapshot.contains mid = true :=
      fun m' hm' => hs m' (List.mem_cons_of_mem _ hm')
    cases hti : truthy m.messageId with
    | none =>
      simp only [upsertStep, hti]
      exact ih l n hstail hinv
    | some mid' =>
      by_cases hc : snapshot.contains mid' = true
      · simp only [upsertStep, hti, hc, if_true]
        set g : Message → Message :=
          fun r => if r.message_id = mid' then applyVolatile r m else r with hgdef
        have hg : ∀ r, (g r).message_id = r.message_id := by
          intro r
          by_cases h : r.message_id = mid' <;> simp [hgdef, h, applyVolatile_message_id]
        have hinv' : ∀ r ∈ l.map g, r.message_id = mid → Q r := by
          intro r hr hrid
          rcases List.mem_map.mp hr with ⟨r', hr', rfl⟩
          have hre : r'.message_id = mid := by rw [← hg r']; exact hrid
          by_cases h : r'.message_id = mid'
          · simp only [hgdef, h, if_true]
            exact hQ r' m (hinv r' hr' hre)
          · simp only [hgdef, h, if_false]
            exact hinv r' hr' hre
        have := ih (l.map g) n hstail hinv'
        refine ⟨this.1, ?_⟩
        rw [this.2, length_filter_mid_map g hg]
      · simp only [upsertStep, hti]
        rw [if_neg hc]
        have hne : mid' ≠ mid := by
          intro h
          subst h
          exact hc (hs m (List.mem_cons_self m ms) hti)
        have hinv' : ∀ r ∈ l ++ [mkNew mid' m], r.message_id = mid → Q r := by
          intro r hr hrid
          rcases List.mem_append.mp hr with h | h
          · exact hinv r h hrid
          · exfalso
            rcases List.mem_singleton.mp h with rfl
            rw [hmk mid' m] at hrid
            exact hne hrid
        have := ih (l ++ [mkNew mid' m]) (n + 1) hstail hinv'
        refine ⟨this.1, ?_⟩
        rw [this.2, List.filter_append]
        have : (([mkNew mid' m]).filter (fun r => r.message_id = mid)) = [] := by
          rw [List.filter_cons]
          have : ¬ ((mkNew mid' m).message_id = mid) := by
            rw [hmk mid' m]; exact hne
          simp [this]
        simp [this]

/-! ## Claim theorems -/

/-- C1: For every message record, re-observing the same external
`message_id` during any sync operation never creates a second stored row;
at most the volatile fields `is_read` and `media` (the stored attachments)
of the existing row change.  Stated over the upsert skeleton
`upsertConvMsgs` shared — with the respective row constructor `mkNew` —
by `_sync_from_members_full`, the incremental and FROM_EBAY branches of
`_do_sync_messages`, and `refresh_thread_messages`; every one of those
paths passes a `pageIds` list covering the ids of the messages it
processes (hypothesis `hpage`), and `hpk` is the primary-key invariant of
the `messages` table. -/
theorem sync_reobserve_no_duplicate
    (mkNew : String → ApiMsg → Message)
    (hmk : ∀ mid m, (mkNew mid m).message_id = mid)
    (dbMsgs : List Message) (pageIds : List String) (msgs : List ApiMsg) (mid : String)
    (hpk : (dbMsgs.map Message.message_id).Nodup)
    (hmem : mid ∈ dbMsgs.map Message.message_id)
    (hpage : ∀ m ∈ msgs, truthy m.messageId = some mid → pageIds.contains mid = true) :
    (((upsertConvMsgs mkNew (buildExistingIds dbMsgs pageIds) dbMsgs msgs).1.filter
        (fun r => r.message_id = mid)).length = 1)
    ∧ ∀ r ∈ (upsertConvMsgs mkNew (buildExistingIds dbMsgs pageIds) dbMsgs msgs).1,
        r.message_id = mid → ∃ r₀ ∈ dbMsgs, r₀.message_id = mid ∧ volatileOnly r₀ r := by
  have hs : ∀ m ∈ msgs, truthy m.messageId = some mid →
      (buildExistingIds dbMsgs pageIds).contains mid = true :=
    fun m hm ht => mem_buildExistingIds_of dbMsgs pageIds mid (hpage m hm ht) hmem
  have hQ : ∀ (r : Message) (m : ApiMsg),
      (∃ r₀ ∈ dbMsgs, r₀.message_id = mid ∧ volatileOnly r₀ r) →
      (∃ r₀ ∈ dbMsgs, r₀.message_id = mid ∧ volatileOnly r₀ (applyVolatile r m)) := by
    intro r m ⟨r₀, hr₀, hid, hvol⟩
    exact ⟨r₀, hr₀, hid, volatileOnly_trans hvol (volatileOnly_applyVolatile r m)⟩
  have hinit : ∀ r ∈ dbMsgs, r.message_id = mid →
      ∃ r₀ ∈ dbMsgs, r₀.message_id = mid ∧ volatileOnly r₀ r :=
    fun r hr hrid => ⟨r, hr, hrid, volatileOnly_refl r⟩
  have h := upsert_fold_mid_invariant mkNew hmk (buildExistingIds dbMsgs pageIds) mid
    (fun r => ∃ r₀ ∈ dbMsgs, r₀.message_id = mid ∧ volatileOnly r₀ r) hQ
    msgs dbMsgs 0 hs hinit
  exact ⟨h.2.trans (nodup_filter_mid_length_one dbMsgs mid hpk hmem), h.1⟩

/-- Witness for C1: the concrete re-observation `exReApi` of the stored
row `exStored` through the member-channel constructor leaves exactly one
row with that id, differing from the original only in volatile fields. -/
theorem sync_reobserve_no_duplicate_witness :
    (((upsertConvMsgs (newMemberMessage "" pIdNone 9 "T1")
        (buildExistingIds [exStored] ["m1"]) [exStored] [exReApi]).1.filter
        (fun r => r.message_id = "m1")).length = 1)
    ∧ ∀ r ∈ (upsertConvMsgs (newMemberMessage "" pIdNone 9 "T1")
        (buildExistingIds [exStored] ["m1"]) [exStored] [exReApi]).1,
        r.message_id = "m1" → ∃ r₀ ∈ [exStored], r₀.message_id = "m1" ∧ volatileOnly r₀ r :=
  sync_reobserve_no_duplicate (newMemberMessage "" pIdNone 9 "T1")
    (fun _ _ => rfl) [exStored] ["m1"] [exReApi] "m1"
    (by decide) (by decide)
    (fun m hm _ => by decide)

/-- C6 counterexample: re-observing the stored message `exStored`
(`is_read = true`, set locally by mark-read) with the API reporting
`readStatus = false` overwrites the stored `is_read` to `false` — the
claim's assertion that locally made `is_read` edits are not clobbered by
the re-fetch is false. -/
theorem resync_overwrites_is_read_counterexample :
    (upsertConvMsgs (newMemberMessage "" pIdNone 9 "T1")
        (buildExistingIds [exStored] ["m1"]) [exStored] [exReApi]).1
      = [{ exStored with is_read := false }]
    ∧ exStored.is_read = true
    ∧ exReApi.readStatus = false := by
  refine ⟨?_, rfl, rfl⟩
  rfl

/-- C6 amended: re-observing an already-stored message leaves `content`,
`subject`, `sender_type`, `sender_username`, `translated_content` and
`detected_language` unchanged, but `is_read` and `media` are overwritten
with the freshly fetched `readStatus` and normalized attachments (so a
locally made read-state edit IS replaced by the marketplace's value).
Stated for a single re-observation through the shared skeleton. -/
theorem resync_preserves_content_fields
    (mkNew : String → ApiMsg → Message)
    (dbMsgs : List Message) (pageIds : List String) (m : ApiMsg) (mid : String)
    (hmid : truthy m.messageId = some mid)
    (hmem : mid ∈ dbMsgs.map Message.message_id)
    (hpage : pageIds.contains mid = true) :
    (upsertConvMsgs mkNew (buildExistingIds dbMsgs pageIds) dbMsgs [m]).1
      = dbMsgs.map (fun r => if r.message_id = mid then applyVolatile r m else r)
    ∧ ∀ r : Message,
        (applyVolatile r m).content = r.content
        ∧ (applyVolatile r m).subject = r.subject
        ∧ (applyVolatile r m).sender_type = r.sender_type
        ∧ (applyVolatile r m).sender_username = r.sender_username
        ∧ (applyVolatile r m).translated_content = r.translated_content
        ∧ (applyVolatile r m).detected_language = r.detected_language
        ∧ (applyVolatile r m).is_read = m.readStatus
        ∧ (applyVolatile r m).media = mediaOrNone m.messageMedia := by
  constructor
  · have hc : (buildExistingIds dbMsgs pageIds).contains mid = true :=
      mem_buildExistingIds_of dbMsgs pageIds mid hpage hmem
    simp only [upsertConvMsgs, List.foldl_cons, List.foldl_nil, upsertStep, hmid, hc, if_true]
  · intro r
    exact ⟨rfl, rfl, rfl, rfl, rfl, rfl, rfl, rfl⟩

/-- Witness for the amended C6, at the concrete fixture re-observation. -/
theorem resync_preserves_content_fields_witness :
    (upsertConvMsgs (newMemberMessage "" pIdNone 9 "T1")
        (buildExistingIds [exStored] ["m1"]) [exStored] [exReApi]).1
      = [exStored].map (fun r => if r.message_id = "m1" then applyVolatile r exReApi else r)
    ∧ ∀ r : Message,
        (applyVolatile r exReApi).content = r.content
        ∧ (applyVolatile r exReApi).subject = r.subject
        ∧ (applyVolatile r exReApi).sender_type = r.sender_type
        ∧ (applyVolatile r exReApi).sender_username = r.sender_username
        ∧ (applyVolatile r exReApi).translated_content = r.translated_content
        ∧ (applyVolatile r exReApi).detected_language = r.detected_language
        ∧ (applyVolatile r exReApi).is_read = exReApi.readStatus
        ∧ (applyVolatile r exReApi).media = mediaOrNone exReApi.messageMedia :=
  resync_preserves_content_fields (newMemberMessage "" pIdNone 9 "T1")
    [exStored] ["m1"] exReApi "m1" (by decide) (by decide) (by decide)

/-- `memberRollup` keeps the thread id. -/
theorem memberRollup_thread_id (pI : String → Option Nat) (t : MessageThread)
    (msgs : List ApiMsg) : (memberRollup pI t msgs).thread_id = t.thread_id := by
  unfold memberRollup
  cases maxByCreatedKey msgs <;> rfl

/-- On a nonempty fetched list, `memberRollup` sets the cached counters
from that list. -/
theorem memberRollup_counts (pI : String → Option Nat) (t : MessageThread)
    (m0 : ApiMsg) (rest : List ApiMsg) :
    (memberRollup pI t (m0 :: rest)).message_count = (m0 :: rest).length
    ∧ (memberRollup pI t (m0 :: rest)).unread_count
        = ((m0 :: rest).filter (fun x => ¬ x.readStatus)).length := ⟨rfl, rfl⟩

/-- After the member thread upsert, a row with the conversation id exists. -/
theorem upsertMemberThread_exists (s : Settings) (pI : String → Option Nat)
    (now : Nat) (threads : List MessageThread) (cid : String)
    (conv : ApiConversation) :
    ∃ t ∈ (upsertMemberThread s pI now threads cid conv).1, t.thread_id = cid := by
  unfold upsertMemberThread
  cases hf : threads.find? (fun t => t.thread_id = cid) with
  | none =>
    refine ⟨newMemberThread s pI now cid conv, ?_, rfl⟩
    simp
  | some t0 =>
    have ht0mem : t0 ∈ threads := List.mem_of_find?_eq_some hf
    have ht0id : t0.thread_id = cid := by
      have := List.find?_some hf
      exact of_decide_eq_true this
    refine ⟨if (truthy t0.buyer_username) = none ∧
        (if isSellerUsername s (buyerUsernameFromConversation s conv) = true then none
          else buyerUsernameFromConversation s conv).isSome then
        { t0 with buyer_username :=
            if isSellerUsername s (buyerUsernameFromConversation s conv) = true then none
            else buyerUsernameFromConversation s conv }
      else t0, ?_, ?_⟩
    · simp only []
      refine List.mem_map.mpr ⟨t0, ht0mem, ?_⟩
      rw [if_pos ht0id]
    · by_cases h : (truthy t0.buyer_username) = none ∧
        (if isSellerUsername s (buyerUsernameFromConversation s conv) = true then none
          else buyerUsernameFromConversation s conv).isSome
      · rw [if_pos h]
        exact ht0id
      · rw [if_neg h]
        exact ht0id

/-- C2 counterexample: a sync pass over `exThread` (one stored message
`exOldMsg` whose id is not in the fetched list) that fetches the single
new message `exNewApi` leaves TWO stored rows for the thread but sets
`message_count` to 1 = `len(msgs)` — so the claimed invariant
"`message_count` equals the number of messages stored for that thread
after any sync pass touching it" is false. -/
theorem rollup_counts_mismatch_counterexample :
    (exBatchOut.db.messages.filter (fun x => x.thread_id = "T1")).length = 2
    ∧ (exBatchOut.db.threads.find? (fun t => t.thread_id = "T1")).map
        (fun t => t.message_count) = some 1 := by
  constructor <;> rfl

/-- C2 amended: after a member sync pass touching a thread with a nonempty
fetched message list, the cached `message_count` equals the LENGTH OF THE
FETCHED LIST for that conversation and `unread_count` the number of
fetched records with `readStatus = false`; these coincide with the stored
per-thread counts only when the fetched list exactly mirrors the thread's
stored messages. -/
theorem rollup_counts_from_fetched_list
    (s : Settings) (pI : String → Option Nat) (now : Nat) (snapshot : List String)
    (acc : SyncAcc) (cid : String) (conv : ApiConversation)
    (m0 : ApiMsg) (rest : List ApiMsg) :
    (∃ t ∈ (processOneMemberConv s pI now snapshot acc cid conv (m0 :: rest)).db.threads,
        t.thread_id = cid)
    ∧ ∀ t ∈ (processOneMemberConv s pI now snapshot acc cid conv (m0 :: rest)).db.threads,
        t.thread_id = cid →
        t.message_count = (m0 :: rest).length
        ∧ t.unread_count = ((m0 :: rest).filter (fun x => ¬ x.readStatus)).length := by
  unfold processOneMemberConv
  simp only [ne_eq, reduceCtorEq, not_false_eq_true, if_true, ite_not]
  constructor
  · obtain ⟨t, htmem, htid⟩ :=
      upsertMemberThread_exists s pI now acc.db.threads cid conv
    refine ⟨memberRollup pI t (m0 :: rest), ?_, ?_⟩
    · exact List.mem_map.mpr ⟨t, htmem, by rw [if_pos htid]⟩
    · rw [memberRollup_thread_id]
      exact htid
  · intro t htmem htid
    rcases List.mem_map.mp htmem with ⟨t', ht'mem, rfl⟩
    by_cases h : t'.thread_id = cid
    · rw [if_pos h]
      exact memberRollup_counts pI t' m0 rest
    · rw [if_neg h] at htid ⊢
      exact absurd htid h

/-- Witness for the amended C2, at the concrete fixture pass. -/
theorem rollup_counts_from_fetched_list_witness :
    (∃ t ∈ (processOneMemberConv ⟨none⟩ pIdNone 7
          (buildExistingIds [exOldMsg] ["mNew"])
          ⟨⟨[exThread], [exOldMsg]⟩, 0, 0⟩ "T1" exConv [exNewApi]).db.threads,
        t.thread_id = "T1")
    ∧ ∀ t ∈ (processOneMemberConv ⟨none⟩ pIdNone 7
          (buildExistingIds [exOldMsg] ["mNew"])
          ⟨⟨[exThread], [exOldMsg]⟩, 0, 0⟩ "T1" exConv [exNewApi]).db.threads,
        t.thread_id = "T1" →
        t.message_count = ([exNewApi] : List ApiMsg).length
        ∧ t.unread_count = (([exNewApi] : List ApiMsg).filter
            (fun x => ¬ x.readStatus)).length :=
  rollup_counts_from_fetched_list ⟨none⟩ pIdNone 7
    (buildExistingIds [exOldMsg] ["mNew"])
    ⟨⟨[exThread], [exOldMsg]⟩, 0, 0⟩ "T1" exConv exNewApi []

/-- C3: At most one `sync()` runs at a time.  When the lock is held, a
second call is rejected with the distinct 503 "Sync already in progress."
and has no side effects (database, globals unchanged; the body never
runs).  When the lock is free, the body runs in a state whose
`_sync_in_progress` flag is `true` (so `syncStatus().isSyncing` reads
`true` strictly during the call) and — whatever the body returns,
including an exception — the `finally` block leaves the lock released and
the flag `false` afterwards; `getSyncStatus` reports exactly that flag. -/
theorem sync_single_flight (g : SyncGlobals) (db : DB) (cursors : Cursors)
    (body : SyncGlobals → DB → Except PyExc SyncResponse × DB) :
    (g.lockLocked = true →
      syncMessagesCall g db body =
        (Except.error (PyExc.httpException 503 "Sync already in progress."), db, g, none))
    ∧ (g.lockLocked = false →
      syncMessagesCall g db body =
        ((body ⟨true, true⟩ db).1, (body ⟨true, true⟩ db).2,
          ⟨false, false⟩, some ⟨true, true⟩))
    ∧ (getSyncStatus ⟨true, true⟩ cursors db).is_syncing = true
    ∧ (getSyncStatus ⟨false, false⟩ cursors db).is_syncing = false := by
  refine ⟨?_, ?_, rfl, rfl⟩
  · intro h
    simp [syncMessagesCall, h]
  · intro h
    simp [syncMessagesCall, h]

/-- Witness for C3: a concrete rejected second call (no side effects) and a
concrete raising call (flag still reset afterwards). -/
theorem sync_single_flight_witness :
    (syncMessagesCall ⟨true, true⟩ ⟨[], []⟩ exBodyOk =
      (Except.error (PyExc.httpException 503 "Sync already in progress."),
        ⟨[], []⟩, ⟨true, true⟩, none))
    ∧ (syncMessagesCall ⟨false, false⟩ ⟨[], []⟩ exBodyRaise =
      ((exBodyRaise ⟨true, true⟩ ⟨[], []⟩).1, (exBodyRaise ⟨true, true⟩ ⟨[], []⟩).2,
        ⟨false, false⟩, some ⟨true, true⟩)) :=
  ⟨(sync_single_flight ⟨true, true⟩ ⟨[], []⟩ [] exBodyOk).1 rfl,
   (sync_single_flight ⟨false, false⟩ ⟨[], []⟩ [] exBodyRaise).2.1 rfl⟩

theorem getCursor_setCursor_same (cs : Cursors) (k v : String) :
    getCursor (setCursor cs k v) k = some v := by
  induction cs with
  | nil => simp [getCursor, setCursor]
  | cons kv rest ih =>
    by_cases h : kv.1 = k
    · simp [setCursor, getCursor, h]
    · simp [setCursor, getCursor, h, ih]

/-- C4: System-channel sync commits after every page and persists the
pagination-offset cursor after every page.  Conjunct (a): an exception at
any page fetch leaves the committed state exactly as it was after the last
completed page.  Conjunct (b): in a run whose first page succeeds
(with more data announced) and whose second page fetch raises, the
committed database contains exactly page 1's processing, and the committed
offset cursor equals page 1's end offset `toString limit` — not `"0"`. -/
theorem ebay_sync_per_page_commit
    (pI : String → Option Nat) (now : Nat) (limit : Nat)
    (fetch : Nat → Except Nat ConvPage) (db0 : DB) (cursors0 : Cursors)
    (p1 : ConvPage) (code : Nat)
    (hcur : getCursor cursors0 "ebay_messages_offset" = none)
    (hf0 : fetch 0 = Except.ok p1)
    (hf1 : fetch limit = Except.error code)
    (hne : p1.conversations.isEmpty = false)
    (hnext : p1.hasNext = true)
    (htot : limit < p1.total)
    (hts : toString limit ≠ "0") :
    (∀ (fuel offset : Nat) (st : EbayRun) (c : Nat), fetch offset = Except.error c →
      ebayLoopGo pI now limit fetch (fuel + 1) offset st = { st with errored := true })
    ∧ (ebaySyncPhase pI now limit true fetch db0 cursors0).db
        = (processEbayPage pI now db0 p1).db
    ∧ getCursor (ebaySyncPhase pI now limit true fetch db0 cursors0).cursors
        "ebay_messages_offset" = some (toString limit)
    ∧ getCursor (ebaySyncPhase pI now limit true fetch db0 cursors0).cursors
        "ebay_messages_offset" ≠ some "0"
    ∧ (ebaySyncPhase pI now limit true fetch db0 cursors0).errored = true := by
  have habort : ∀ (fuel offset : Nat) (st : EbayRun) (c : Nat),
      fetch offset = Except.error c →
      ebayLoopGo pI now limit fetch (fuel + 1) offset st = { st with errored := true } := by
    intro fuel offset st c hfe
    simp only [ebayLoopGo, hfe]
  have hcond : ¬ (p1.total ≤ 0 + limit ∨ ¬ p1.hasNext = true) := by
    rw [Nat.zero_add, hnext]
    simp only [not_or, Nat.not_le]
    exact ⟨htot, by simp⟩
  have hf1' : fetch (0 + limit) = Except.error code := by
    rw [Nat.zero_add]
    exact hf1
  have hrun : ebaySyncPhase pI now limit true fetch db0 cursors0 =
      { db := (processEbayPage pI now db0 p1).db
        cursors := setCursor cursors0 "ebay_messages_offset" (toString (0 + limit))
        ebayThreads := 0 + (processEbayPage pI now db0 p1).threadsSynced
        ebayMessages := 0 + (processEbayPage pI now db0 p1).messagesSynced
        reachedEnd := false, errored := true } := by
    unfold ebaySyncPhase
    rw [hcur]
    simp only [ebayLoopGo, hf0, hf1', hne, hcond, Bool.false_eq_true, if_false, ite_false,
      false_and, and_false]
  rw [hrun]
  refine ⟨habort, rfl, ?_, ?_, rfl⟩
  · show getCursor (setCursor cursors0 "ebay_messages_offset" (toString (0 + limit)))
        "ebay_messages_offset" = some (toString limit)
    rw [getCursor_setCursor_same, Nat.zero_add]
  · show getCursor (setCursor cursors0 "ebay_messages_offset" (toString (0 + limit)))
        "ebay_messages_offset" ≠ some "0"
    rw [getCursor_setCursor_same, Nat.zero_add]
    intro h
    exact hts (Option.some_injective _ h)

/-- Witness for C4: the concrete interrupted run against `exEbayFetch`
(page 1 delivered, page 2 times out): page-1 threads/messages are
committed and the offset cursor reads `"50"`. -/
theorem ebay_sync_per_page_commit_witness :
    (ebaySyncPhase pIdNone 3 50 true exEbayFetch ⟨[], []⟩ []).db
        = (processEbayPage pIdNone 3 ⟨[], []⟩ exEbayPage).db
    ∧ getCursor (ebaySyncPhase pIdNone 3 50 true exEbayFetch ⟨[], []⟩ []).cursors
        "ebay_messages_offset" = some "50"
    ∧ getCursor (ebaySyncPhase pIdNone 3 50 true exEbayFetch ⟨[], []⟩ []).cursors
        "ebay_messages_offset" ≠ some "0"
    ∧ (ebaySyncPhase pIdNone 3 50 true exEbayFetch ⟨[], []⟩ []).errored = true := by
  have h := ebay_sync_per_page_commit pIdNone 3 50 exEbayFetch ⟨[], []⟩ []
    exEbayPage 500 rfl rfl rfl rfl rfl (by decide) (by decide)
  exact ⟨h.2.1, h.2.2.1, h.2.2.2.1, h.2.2.2.2⟩

/-- `ebayRollup` keeps the thread id. -/
theorem ebayRollup_thread_id (pI : String → Option Nat) (t : MessageThread)
    (msgs : List ApiMsg) : (ebayRollup pI t msgs).thread_id = t.thread_id := by
  unfold ebayRollup
  cases maxByCreatedKey msgs <;> rfl

/-- Processing one FROM_EBAY conversation whose thread already exists
creates no thread row. -/
theorem processOneEbayConv_no_create (pI : String → Option Nat) (now : Nat)
    (snapshot : List String) (acc : SyncAcc)
    (conv : ApiConversation) (fr : Except Unit (List ApiMsg))
    (h : ∀ cid, truthy conv.conversationId = some cid →
      ∃ t ∈ acc.db.threads, t.thread_id = cid) :
    ((processOneEbayConv pI now snapshot acc conv fr).db.threads.length
        = acc.db.threads.length)
    ∧ (processOneEbayConv pI now snapshot acc conv fr).threadsSynced
        = acc.threadsSynced
    ∧ ∀ x, (∃ t ∈ acc.db.threads, t.thread_id = x) →
        ∃ t ∈ (processOneEbayConv pI now snapshot acc conv fr).db.threads,
          t.thread_id = x := by
  cases hti : truthy conv.conversationId with
  | none =>
    have he : processOneEbayConv pI now snapshot acc conv fr = acc := by
      simp only [processOneEbayConv, hti]
    rw [he]
    exact ⟨rfl, rfl, fun x hx => hx⟩
  | some cid =>
    cases fr with
    | error e =>
      have he : processOneEbayConv pI now snapshot acc conv (Except.error e) = acc := by
        simp only [processOneEbayConv, hti]
      rw [he]
      exact ⟨rfl, rfl, fun x hx => hx⟩
    | ok msgs =>
      obtain ⟨t0, ht0, hid⟩ := h cid hti
      have hfs : (acc.db.threads.find? (fun t => t.thread_id = cid)).isSome := by
        rw [List.find?_isSome]
        exact ⟨t0, ht0, decide_eq_true hid⟩
      cases hfind : acc.db.threads.find? (fun t => t.thread_id = cid) with
      | none => rw [hfind] at hfs; simp at hfs
      | some tf =>
        have he : processOneEbayConv pI now snapshot acc conv (Except.ok msgs)
            = { db :=
                  { threads :=
                      if msgs ≠ [] then
                        acc.db.threads.map (fun t =>
                          if t.thread_id = cid then ebayRollup pI t msgs else t)
                      else acc.db.threads
                    messages :=
                      (upsertConvMsgs (newEbayMessage pI now cid) snapshot
                        acc.db.messages msgs).1 }
                threadsSynced := acc.threadsSynced
                messagesSynced := acc.messagesSynced
                  + (upsertConvMsgs (newEbayMessage pI now cid) snapshot
                      acc.db.messages msgs).2 } := by
          simp only [processOneEbayConv, hti, hfind]
          simp
        rw [he]
        by_cases hm : msgs = []
        · subst hm
          exact ⟨rfl, rfl, fun x hx => hx⟩
        · rw [if_pos hm]
          refine ⟨List.length_map _ _, rfl, ?_⟩
          intro x hx
          obtain ⟨t, ht, htx⟩ := hx
          refine ⟨if t.thread_id = cid then ebayRollup pI t msgs else t,
            List.mem_map.mpr ⟨t, ht, rfl⟩, ?_⟩
          by_cases hcase : t.thread_id = cid
          · rw [if_pos hcase, ebayRollup_thread_id]
            exact htx
          · rw [if_neg hcase]
            exact htx

/-- The FROM_EBAY page fold creates no threads when every conversation on
the page already has a local thread. -/
theorem ebay_fold_no_create (pI : String → Option Nat) (now : Nat)
    (snapshot : List String) :
    ∀ (convs : List (ApiConversation × Except Unit (List ApiMsg))) (acc : SyncAcc),
      (∀ cf ∈ convs, ∀ cid, truthy cf.1.conversationId = some cid →
        ∃ t ∈ acc.db.threads, t.thread_id = cid) →
      ((convs.foldl (fun a cf => processOneEbayConv pI now snapshot a cf.1 cf.2)
          acc).db.threads.length = acc.db.threads.length
       ∧ (convs.foldl (fun a cf => processOneEbayConv pI now snapshot a cf.1 cf.2)
          acc).threadsSynced = acc.threadsSynced) := by
  intro convs
  induction convs with
  | nil => intro acc _; exact ⟨rfl, rfl⟩
  | cons cf rest ih =>
    intro acc hall
    have hstep := processOneEbayConv_no_create pI now snapshot acc cf.1 cf.2
      (hall cf (List.mem_cons_self cf rest))
    have htail : ∀ cf' ∈ rest, ∀ cid, truthy cf'.1.conversationId = some cid →
        ∃ t ∈ (processOneEbayConv pI now snapshot acc cf.1 cf.2).db.threads,
          t.thread_id = cid := by
      intro cf' hcf' cid hcid
      exact hstep.2.2 cid (hall cf' (List.mem_cons_of_mem cf hcf') cid hcid)
    have hrest := ih (processOneEbayConv pI now snapshot acc cf.1 cf.2) htail
    simp only [List.foldl_cons]
    exact ⟨hrest.1.trans hstep.1, hrest.2.trans hstep.2.1⟩

/-- C7 counterexample: a system-channel page containing a conversation
whose thread `E1` already exists locally.  The `conv_ids` list handed to
the message-fetch fan-out (messages.py line 1403) still contains `E1`:
the existing thread DOES incur a message fetch on that page, contrary to
the claim. -/
theorem ebay_existing_thread_fetch_counterexample :
    pageFetchIds [exEbayConv] = ["E1"]
    ∧ ((⟨[exEbayThread], []⟩ : DB).threads.find?
        (fun t => t.thread_id = "E1")).isSome = true := ⟨rfl, rfl⟩

/-- C7 amended: during system-channel sync, per-conversation message
fetches are issued for EVERY conversation id on the page, whether or not
its thread already exists; what is restricted to newly observed ids is
thread CREATION — a page all of whose conversations already have local
threads adds no thread row and counts zero new threads. -/
theorem ebay_fetch_all_page_conversations (pI : String → Option Nat) (now : Nat)
    (db : DB) (page : ConvPage) :
    (∀ cf ∈ page.conversations, ∀ cid, truthy cf.1.conversationId = some cid →
      cid ∈ pageFetchIds (page.conversations.map Prod.fst))
    ∧ ((∀ cf ∈ page.conversations, ∀ cid, truthy cf.1.conversationId = some cid →
        ∃ t ∈ db.threads, t.thread_id = cid) →
      ((processEbayPage pI now db page).db.threads.length = db.threads.length
       ∧ (processEbayPage pI now db page).threadsSynced = 0)) := by
  constructor
  · intro cf hcf cid hcid
    unfold pageFetchIds
    exact List.mem_filterMap.mpr ⟨cf.1, List.mem_map.mpr ⟨cf, hcf, rfl⟩, hcid⟩
  · intro hall
    have := ebay_fold_no_create pI now
      (buildExistingIds db.messages (convPageMsgIds page.conversations))
      page.conversations ⟨db, 0, 0⟩ hall
    exact this

/-- Witness for the amended C7 at the concrete page over an existing
thread: the fetch set contains `E1` and no thread is created. -/
theorem ebay_fetch_all_page_conversations_witness :
    ("E1" ∈ pageFetchIds (exEbayPage.conversations.map Prod.fst))
    ∧ (processEbayPage pIdNone 3 ⟨[exEbayThread], []⟩ exEbayPage).db.threads.length
        = (⟨[exEbayThread], []⟩ : DB).threads.length
    ∧ (processEbayPage pIdNone 3 ⟨[exEbayThread], []⟩ exEbayPage).threadsSynced = 0 := by
  have h := ebay_fetch_all_page_conversations pIdNone 3 ⟨[exEbayThread], []⟩ exEbayPage
  have hhyp : ∀ cf ∈ exEbayPage.conversations, ∀ cid,
      truthy cf.1.conversationId = some cid →
      ∃ t ∈ (⟨[exEbayThread], []⟩ : DB).threads, t.thread_id = cid := by
    intro cf hcf cid hcid
    rcases List.mem_singleton.mp hcf with rfl
    have : cid = "E1" := by
      have h1 : truthy exEbayConv.conversationId = some "E1" := rfl
      rw [h1] at hcid
      exact (Option.some_injective _ hcid).symm
    subst this
    exact ⟨exEbayThread, List.mem_singleton.mpr rfl, rfl⟩
  have h2 := h.2 hhyp
  refine ⟨?_, h2.1, h2.2⟩
  exact h.1 (exEbayConv, Except.ok [exNewApi]) (List.mem_singleton.mpr rfl) "E1" rfl

/-- C8: The model documentation (`models/messages.py` line 67) constrains
`sender_type` to "buyer, seller, system", and the spec states the same
vocabulary; but every message stored by the system-channel sync path is
constructed with `sender_type = "ebay"` (messages.py line 1473), which is
not in the documented set — the code contradicts its own column
documentation. -/
theorem ebay_sender_type_not_in_documented_set :
    (∀ (pI : String → Option Nat) (now : Nat) (tid mid : String) (m : ApiMsg),
      (newEbayMessage pI now tid mid m).sender_type = "ebay")
    ∧ (["buyer", "seller", "system"].contains "ebay") = false :=
  ⟨fun _ _ _ _ _ => rfl, rfl⟩

/-- C10: When no seller username is configured (unset or blank, so the
normalized `seller_username` is `""`), every member-channel message created
by the sync or refreshThread constructors is classified `"buyer"` —
including messages actually sent by the seller; `"seller"` is assigned
exactly when the configured name is nonempty and matches the sender
case-insensitively (`sender.lower() == seller_username`). -/
theorem empty_seller_config_classifies_buyer
    (s : Settings) (pI : String → Option Nat) (now : Nat) (tid mid : String)
    (m : ApiMsg) (hs : normalizedSeller s = "") :
    (newMemberMessage (normalizedSeller s) pI now tid mid m).sender_type = "buyer"
    ∧ (newRefreshMessage (normalizedSeller s) pI now tid mid m).sender_type = "buyer"
    ∧ ∀ sellerU sender : String,
        classifySender sellerU sender = "seller" ↔
          (sellerU ≠ "" ∧ pyLower sender = sellerU) := by
  have hb : ∀ sender, classifySender (normalizedSeller s) sender = "buyer" := by
    intro sender
    unfold classifySender
    rw [hs]
    simp
  refine ⟨hb (apiSender m), hb (apiSender m), ?_⟩
  intro sellerU sender
  unfold classifySender
  by_cases h : sellerU ≠ "" ∧ pyLower sender = sellerU
  · rw [if_pos h]
    simp [h]
  · rw [if_neg h]
    constructor
    · intro hc
      exact absurd hc (by decide)
    · intro hc
      exact absurd hc h

/-- Witness for C10: with `EBAY_SELLER_USERNAME` unset, a message sent by
the seller account `TheSeller` is still stored as a buyer message. -/
theorem empty_seller_config_classifies_buyer_witness :
    (newMemberMessage (normalizedSeller ⟨none⟩) pIdNone 4 "T1" "mSeller"
        exSellerSentApi).sender_type = "buyer"
    ∧ (newRefreshMessage (normalizedSeller ⟨none⟩) pIdNone 4 "T1" "mSeller"
        exSellerSentApi).sender_type = "buyer"
    ∧ ∀ sellerU sender : String,
        classifySender sellerU sender = "seller" ↔
          (sellerU ≠ "" ∧ pyLower sender = sellerU) :=
  empty_seller_config_classifies_buyer ⟨none⟩ pIdNone 4 "T1" "mSeller"
    exSellerSentApi (by decide)

/-- C9: The system-message normalizer on the specification's fixture input
with bound 5000 yields exactly `"HelloWorld"`: it contains `"Hello"` and
`"World"`, no `"evil()"`, no tag characters, and no truncation marker
(the decoded text does not exceed the bound); and in general, for nonempty
input, `_strip_html_to_text` returns the normalized text unchanged when it
fits the bound and the bound-length character slice with the
`"\n\n[Content truncated...]"` marker appended exactly when the normalized
text exceeds the bound.  The pipeline `stripHtmlCore` is, definitionally,
script/style-block removal, block-tag-to-newline conversion, remaining-tag
stripping, entity decoding, whitespace collapsing and a final strip — a
pure function of its input. -/
theorem strip_html_normalizer_spec :
    (stripHtmlToText "<p>Hello</p><script>evil()</script>World" 5000 = "HelloWorld")
    ∧ containsSub (stripHtmlToText "<p>Hello</p><script>evil()</script>World" 5000)
        "Hello" = true
    ∧ containsSub (stripHtmlToText "<p>Hello</p><script>evil()</script>World" 5000)
        "World" = true
    ∧ containsSub (stripHtmlToText "<p>Hello</p><script>evil()</script>World" 5000)
        "evil()" = false
    ∧ (stripHtmlToText "<p>Hello</p><script>evil()</script>World" 5000).data.contains
        '<' = false
    ∧ (stripHtmlToText "<p>Hello</p><script>evil()</script>World" 5000).data.contains
        '>' = false
    ∧ containsSub (stripHtmlToText "<p>Hello</p><script>evil()</script>World" 5000)
        "[Content truncated...]" = false
    ∧ ∀ (html : String) (n : Nat), html ≠ "" →
        ((stripHtmlCore html.data).length ≤ n →
          stripHtmlToText html n = String.mk (stripHtmlCore html.data))
        ∧ (n < (stripHtmlCore html.data).length →
          stripHtmlToText html n
            = String.mk ((stripHtmlCore html.data).take n ++ truncationMarker)) := by
  refine ⟨rfl, rfl, rfl, rfl, rfl, rfl, rfl, ?_⟩
  intro html n hne
  constructor
  · intro hle
    unfold stripHtmlToText
    rw [if_neg hne]
    show (if n < (stripHtmlCore html.data).length then
        String.mk ((stripHtmlCore html.data).take n ++ truncationMarker)
      else String.mk (stripHtmlCore html.data)) = String.mk (stripHtmlCore html.data)
    rw [if_neg (Nat.not_lt.mpr hle)]
  · intro hlt
    unfold stripHtmlToText
    rw [if_neg hne]
    show (if n < (stripHtmlCore html.data).length then
        String.mk ((stripHtmlCore html.data).take n ++ truncationMarker)
      else String.mk (stripHtmlCore html.data))
      = String.mk ((stripHtmlCore html.data).take n ++ truncationMarker)
    rw [if_pos hlt]

/-- Witness for C9: a nonempty input whose normalized text exceeds a bound
of 3 is truncated with the marker appended. -/
theorem strip_html_normalizer_spec_witness :
    ("abcdef" : String) ≠ ""
    ∧ (3 : Nat) < (stripHtmlCore ("abcdef" : String).data).length
    ∧ stripHtmlToText "abcdef" 3
        = String.mk ((stripHtmlCore ("abcdef" : String).data).take 3 ++ truncationMarker) :=
  ⟨by decide, by decide,
    (strip_html_normalizer_spec.2.2.2.2.2.2.2 "abcdef" 3 (by decide)).2 (by decide)⟩

/-- C5 counterexample: a concrete incremental sync whose member-channel
conversation-list fetch raises HTTP 403 (`exEnv403`) fails the invocation
with a GENERIC `HTTPException 500 "Sync failed: ..."`, not the distinct
403 "forbidden — reconnect" condition the claim asserts for both modes:
`httpx.HTTPStatusError` from `fetch_all_conversations` is not an
`HTTPException`, so it falls through to the catch-all handler
(messages.py lines 1547-1553). -/
theorem incremental_forbidden_generic_counterexample :
    exOut403.result
      = Except.error (PyExc.httpException 500 "Sync failed: HTTP status 403")
    ∧ exOut403.db = (⟨[], []⟩ : DB)
    ∧ (500 : Nat) ≠ 403 := ⟨rfl, rfl, by decide⟩

/-- C5 amended: (a) in FULL mode a 403 on the member-channel conversation
fetch fails the whole invocation with the distinct
`HTTPException 403` "reconnect and re-grant scope" detail;
(b) in INCREMENTAL mode the same 403 (raised by the conversation-list
fetch) is surfaced as a generic `HTTPException 500 "Sync failed: ..."`,
not a 403; (c) a 403 or transient error on the system-channel fetch is
caught locally: the invocation still reports success and the committed
member-channel work is preserved. -/
theorem sync_error_routing
    (s : Settings) (pI : String → Option Nat) (now : Nat)
    (nowIso syncStartIso : String) (b : Nat) (env : SyncEnv)
    (db0 : DB) (cursors0 : Cursors)
    (htok : env.token = Except.ok ()) :
    (env.memberFetch 0 = Except.error 403 →
      doSyncMessages s pI now nowIso syncStartIso (b + 1) env true db0 cursors0
        = { result := Except.error (PyExc.httpException 403 detailForbiddenMember)
            db := purgeStubs db0, cursors := cursors0 })
    ∧ (env.incrConvs (truthy (getCursor cursors0 "messages_member_last_sync_at"))
        = Except.error 403 →
      doSyncMessages s pI now nowIso syncStartIso (b + 1) env false db0 cursors0
        = { result := Except.error (PyExc.httpException 500
              ("Sync failed: HTTP status " ++ toString 403))
            db := purgeStubs db0, cursors := cursors0 })
    ∧ (∀ (p : ConvPage) (code : Nat),
      env.memberFetch 0 = Except.ok p →
      p.conversations.isEmpty = false →
      p.hasNext = false →
      getCursor cursors0 "ebay_messages_offset" = none →
      env.ebayFetch 0 = Except.error code →
      (isOkResult (doSyncMessages s pI now nowIso syncStartIso (b + 1) env true
          db0 cursors0).result = true
       ∧ (doSyncMessages s pI now nowIso syncStartIso (b + 1) env true
            db0 cursors0).db
          = (processMemberFullPage s pI now ⟨purgeStubs db0, 0, 0⟩ p).db)) := by
  refine ⟨?_, ?_, ?_⟩
  · intro hm
    simp [doSyncMessages, htok, syncFromMembersFull, memberFullGo, hm, mapSyncError]
  · intro hi
    simp [doSyncMessages, htok, hi, mapSyncError]
  · intro p code hmp hne hnext hcur heb
    have hmember : syncFromMembersFull s pI now 50 (b + 1) env.memberFetch
        (purgeStubs db0)
        = Except.ok (processMemberFullPage s pI now ⟨purgeStubs db0, 0, 0⟩ p) := by
      simp [syncFromMembersFull, memberFullGo, hmp, hne, hnext]
    have hebphase : ∀ dbm : DB,
        ebaySyncPhase pI now 50 true env.ebayFetch dbm cursors0
          = { db := dbm, cursors := cursors0, ebayThreads := 0, ebayMessages := 0,
              reachedEnd := false, errored := true } := by
      intro dbm
      simp [ebaySyncPhase, hcur, ebayLoopGo, heb]
    constructor
    · simp [doSyncMessages, htok, hmember, hebphase, isOkResult]
    · simp [doSyncMessages, htok, hmember, hebphase]

/-- Witness for the amended C5: concrete runs for all three behaviours. -/
theorem sync_error_routing_witness :
    (doSyncMessages ⟨none⟩ pIdNone 0 "2024Z" "2024S" 1 exEnvFull403 true ⟨[], []⟩ []
      = { result := Except.error (PyExc.httpException 403 detailForbiddenMember)
          db := purgeStubs ⟨[], []⟩, cursors := [] })
    ∧ (doSyncMessages ⟨none⟩ pIdNone 0 "2024Z" "2024S" 1 exEnv403 false ⟨[], []⟩ []
      = { result := Except.error (PyExc.httpException 500
            ("Sync failed: HTTP status " ++ toString 403))
          db := purgeStubs ⟨[], []⟩, cursors := [] })
    ∧ (isOkResult (doSyncMessages ⟨none⟩ pIdNone 0 "2024Z" "2024S" 1 exEnvEbayErr true
          ⟨[], []⟩ []).result = true
       ∧ (doSyncMessages ⟨none⟩ pIdNone 0 "2024Z" "2024S" 1 exEnvEbayErr true
            ⟨[], []⟩ []).db
          = (processMemberFullPage ⟨none⟩ pIdNone 0
              ⟨purgeStubs ⟨[], []⟩, 0, 0⟩ exMemberPage).db) := by
  have h := sync_error_routing ⟨none⟩ pIdNone 0 "2024Z" "2024S" 0 exEnvEbayErr
    ⟨[], []⟩ [] rfl
  have hfull := sync_error_routing ⟨none⟩ pIdNone 0 "2024Z" "2024S" 0 exEnvFull403
    ⟨[], []⟩ [] rfl
  have hincr := sync_error_routing ⟨none⟩ pIdNone 0 "2024Z" "2024S" 0 exEnv403
    ⟨[], []⟩ [] rfl
  exact ⟨hfull.1 rfl, hincr.2.1 rfl, h.2.2 exMemberPage 502 rfl rfl rfl rfl rfl⟩

end Evamp

